import Mathlib

/-
Verification of the background article-processing pipeline of the
pocketscribe service against its natural-language specification.

The Go sources are shallowly embedded: every external effect (database
reads/writes, HTTP calls to the summarizer, title generator, thumbnail
generator, speech synthesizer, video synthesizer, storage, and push
notifications) is resolved through an explicit environment of oracle
outcomes, and each run produces an event trace recording which
capabilities were invoked and which persistence writes were issued, in
program order.
-/

namespace PocketScribe

/-- A JSON-like value, as produced by unmarshalling a Fal API result body
into a generic Go map: only string leaves and nested objects matter to
the URL search in fetchVideoURL; every other shape is collapsed into
`other`. -/
inductive JVal where
  | str (s : String) : JVal
  | obj (fields : List (String × JVal)) : JVal
  | other : JVal

/-- First binding of a key in a JSON object, mirroring a Go map lookup. -/
def jLookup (fields : List (String × JVal)) (k : String) : Option JVal :=
  match fields with
  | [] => none
  | (k₁, v) :: rest => if k₁ = k then some v else jLookup rest k

/-- A Go type assertion to map[string]interface, applied to a lookup result. -/
def getObj (m : List (String × JVal)) (k : String) : Option (List (String × JVal)) :=
  match jLookup m k with
  | some (.obj fs) => some fs
  | _ => none

/-- A Go type assertion to string, applied to a lookup result. -/
def getStr (m : List (String × JVal)) (k : String) : Option String :=
  match jLookup m k with
  | some (.str s) => some s
  | _ => none

/-- The URL search of FalService.fetchVideoURL over the parsed result
object, translated clause by clause from the Go source: a nested
video.url is tried first, then data.video.url, then data.url, and only
then a top-level url; if none of the shapes match, the fetch fails. -/
def extractVideoURL (result : List (String × JVal)) : Except String String :=
  match (getObj result "video").bind (fun video => getStr video "url") with
  | some url => .ok url
  | none =>
    match getObj result "data" with
    | some data =>
      match (getObj data "video").bind (fun video => getStr video "url") with
      | some url => .ok url
      | none =>
        match getStr data "url" with
        | some url => .ok url
        | none =>
          match getStr result "url" with
          | some url => .ok url
          | none => .error "video URL not found in result response"
    | none =>
      match getStr result "url" with
      | some url => .ok url
      | none => .error "video URL not found in result response"

/-- Parsed body of a Fal status response (SoraStatusResponse in the Go
source). `output` is `none` when the Output map is nil. -/
structure SoraStatusResponse where
  requestID : String
  status : String
  responseURL : String
  error : String
  output : Option (List (String × JVal))

/-- Events observable in a run of the processor: capability invocations,
persistence writes, video sub-pipeline steps, local file operations and
notification dispatches, in program order. -/
inductive Ev where
  | updStatus (id : Int) (status errMsg : String) : Ev
  | selectArticle (id : Int) : Ev
  | callSummarize (url length language style : String) : Ev
  | callGenTitle : Ev
  | callGenThumbnail : Ev
  | uploadThumbnail (key : String) : Ev
  | saveSummary : Ev
  | saveThumbPath : Ev
  | saveAudioPath : Ev
  | saveVideoPath : Ev
  | callTTS (language style : String) : Ev
  | videoSubmit (prompt : String) (duration : Int) : Ev
  | videoSleep (seconds : Nat) : Ev
  | videoQuery (attempt : Nat) : Ev
  | videoFetch (responseURL : String) : Ev
  | videoDownload (url : String) : Ev
  | createFile (path : String) : Ev
  | uploadVideo (key localPath : String) : Ev
  | deleteFile (path : String) : Ev
  | notifyFailedEv (title body : String) : Ev
  | notifyReadyEv (title body : String) : Ev
deriving DecidableEq, Repr

/-- Environment of the Fal video service for one run: the API key and the
outcome of each remote interaction (submission, the status response at
each poll attempt, the result fetch at a response URL, the download of a
video URL), plus the clock value used to name the temporary file. -/
structure FalEnv where
  apiKey : String
  submitR : Except String String
  pollR : Nat → Except String SoraStatusResponse
  fetchR : String → Except String (List (String × JVal))
  downloadR : String → Except String Unit
  nowUnix : Int

/-- FalService.fetchVideoURL: fetch the result body at the indirection
URL (transport, HTTP-status and parse failures are collapsed into the
oracle error) and search it for the video URL. -/
def fetchVideoURL (f : FalEnv) (responseURL : String) : Except String String :=
  match f.fetchR responseURL with
  | .error e => .error e
  | .ok result => extractVideoURL result

/-- Loop body of FalService.pollForCompletion: at each remaining attempt
sleep 5 seconds, query the remote status, and react exactly as the Go
switch does; fuel exhaustion is the 60-attempt timeout. -/
def pollAux (f : FalEnv) : Nat → Nat → List Ev × Except String String
  | _, 0 => ([], .error "video generation timed out after 60 attempts")
  | attempt, fuel + 1 =>
    match f.pollR attempt with
    | .error e => ([.videoSleep 5, .videoQuery attempt], .error e)
    | .ok st =>
      if st.status = "COMPLETED" then
        if st.responseURL = "" then
          match st.output with
          | some out =>
            match getStr out "video" with
            | some videoURL => ([.videoSleep 5, .videoQuery attempt], .ok videoURL)
            | none =>
              match getStr out "url" with
              | some videoURL => ([.videoSleep 5, .videoQuery attempt], .ok videoURL)
              | none => ([.videoSleep 5, .videoQuery attempt],
                  .error "video completed but no URL found in response")
          | none => ([.videoSleep 5, .videoQuery attempt],
              .error "video completed but no URL found in response")
        else
          match fetchVideoURL f st.responseURL with
          | .error e => ([.videoSleep 5, .videoQuery attempt, .videoFetch st.responseURL],
              .error ("failed to fetch video URL: " ++ e))
          | .ok url => ([.videoSleep 5, .videoQuery attempt, .videoFetch st.responseURL], .ok url)
      else if st.status = "FAILED" then
        ([.videoSleep 5, .videoQuery attempt], .error ("video generation failed: " ++ st.error))
      else if st.status = "PENDING" ∨ st.status = "PROCESSING" then
        let rest := pollAux f (attempt + 1) fuel
        (.videoSleep 5 :: .videoQuery attempt :: rest.1, rest.2)
      else
        ([.videoSleep 5, .videoQuery attempt], .error ("unknown status: " ++ st.status))

/-- FalService.pollForCompletion: up to 60 attempts, 5-second interval. -/
def pollForCompletion (f : FalEnv) (_requestID : String) : List Ev × Except String String :=
  pollAux f 0 60

/-- FalService.GenerateVideo: guard on the API key, submit, then poll. -/
def GenerateVideo (f : FalEnv) (prompt : String) (duration : Int) :
    List Ev × Except String String :=
  if f.apiKey = "" then ([], .error "FAL_API_KEY not set")
  else
    match f.submitR with
    | .error e => ([.videoSubmit prompt duration], .error ("failed to submit request: " ++ e))
    | .ok requestID =>
      let polled := pollForCompletion f requestID
      match polled.2 with
      | .error e => (.videoSubmit prompt duration :: polled.1,
          .error ("failed to get video: " ++ e))
      | .ok videoURL => (.videoSubmit prompt duration :: polled.1, .ok videoURL)

/-- FalService.DownloadVideo: download the video (transport, HTTP-status,
directory and file-system failures are collapsed into the oracle error)
into a file named by the article id and the current unix time. -/
def DownloadVideo (f : FalEnv) (videoURL : String) (articleID : Int) :
    List Ev × Except String String :=
  match f.downloadR videoURL with
  | .error e => ([.videoDownload videoURL], .error e)
  | .ok _ =>
    let filename :=
      "uploads/videos/article_" ++ toString articleID ++ "_" ++ toString f.nowUnix ++ ".mp4"
    ([.videoDownload videoURL, .createFile filename], .ok filename)

/-- Alert part of the APNS payload (APSAlert in the Go source). -/
structure APSAlert where
  title : String
  body : String
  subtitle : String
deriving DecidableEq, Repr

/-- APNSService.SendArticleReadyNotification: payload with the job title
embedded in the body. -/
def readyNotificationBody (title : String) : String :=
  "Your article \x27" ++ title ++ "\x27 is ready to read"

/-- Alert constructed by APNSService.SendArticleReadyNotification. -/
def sendArticleReadyAlert (title : String) : APSAlert :=
  { title := "Article Ready!", body := readyNotificationBody title, subtitle := "" }

/-- Alert constructed by APNSService.SendArticleFailedNotification for a
given error message (the Go function receives errorMsg as a parameter). -/
def sendArticleFailedAlert (_errorMsg : String) : APSAlert :=
  { title := "Article Processing Failed"
    body := "There was an error processing your article"
    subtitle := "" }

/-- Columns of the articles row that ProcessArticle reads or writes. -/
structure ArticleRow where
  url : String
  format : String
  length : String
  language : Option String
  style : Option String
  status : String
  errorMessage : String
  originalContent : Option String
  title : Option String
  summary : Option String
  thumbnailPath : Option String
  audioFilePath : Option String
  videoFilePath : Option String
  durationSeconds : Option Int
deriving DecidableEq, Repr

/-- The articles table, as an association list from id to row. -/
def Store := List (Int × ArticleRow)

instance : DecidableEq Store := fun a b => List.hasDecEq a b

/-- A SQL UPDATE ... WHERE id = $n: rewrite every matching row; updating
an id with no row present matches zero rows and is not an error. -/
def storeUpdate (s : Store) (id : Int) (f : ArticleRow → ArticleRow) : Store :=
  s.map (fun p => if p.1 = id then (p.1, f p.2) else p)

/-- A SQL SELECT ... WHERE id = $n returning the first matching row. -/
def storeLookup (s : Store) (id : Int) : Option ArticleRow :=
  match s with
  | [] => none
  | (id₁, r) :: rest => if id₁ = id then some r else storeLookup rest id

/-- Environment of the storage service: the endpoint and bucket used to
build public URLs, the outcome of the thumbnail PutObject, and the
outcome of the video upload. -/
structure StorageEnv where
  endpoint : String
  bucketName : String
  putThumbR : Except String Unit
  uploadVideoR : Except String String

/-- StorageService.UploadFile: put the object and return its public URL. -/
def UploadFile (st : StorageEnv) (key : String) (_data _contentType : String) :
    Except String String :=
  match st.putThumbR with
  | .error e => .error ("failed to upload file: " ++ e)
  | .ok _ => .ok (st.endpoint ++ "/object/public/" ++ st.bucketName ++ "/" ++ key)

/-- Modelled from the spec: StorageService.UploadVideoFile is called by
the processor but absent from the source tree. Per the spec (the video
stage is download to a temporary local artifact, upload to durable
storage, delete temporary artifact) and VIDEO_GENERATION.md (the local
file is automatically deleted after successful upload), it uploads the
local file under the given key, returns the durable URL, and deletes the
local temporary file after a successful upload. -/
def UploadVideoFile (st : StorageEnv) (key localPath : String) :
    List Ev × Except String String :=
  match st.uploadVideoR with
  | .error e => ([.uploadVideo key localPath], .error e)
  | .ok url => ([.uploadVideo key localPath, .deleteFile localPath], .ok url)

/-- Modelled from the spec: services.GenerateVideoKey is called by the
processor but absent from the source tree; VIDEO_GENERATION.md stores
videos under videos/article_{id}.mp4 in the bucket. -/
def GenerateVideoKey (articleID : Int) : String :=
  "videos/article_" ++ toString articleID ++ ".mp4"

/-- Modelled from the spec: services.GenerateThumbnailKey is called by
the processor but absent from the source tree and the spec does not fix
its shape; the key is only ever used as an opaque storage key. -/
def GenerateThumbnailKey (articleID : Int) : String :=
  "thumbnails/article_" ++ toString articleID ++ ".png"

/-- Environment of one ProcessArticle run: the outcome of every
persistence write and capability call, the optional video service, and
whether a notification target is configured. -/
structure ProcEnv where
  wProcessing : Except String Unit
  selectW : Except String Unit
  wFailed : Except String Unit
  wSaveSummary : Except String Unit
  wSaveThumb : Except String Unit
  wSaveAudio : Except String Unit
  wSaveVideo : Except String Unit
  wReady : Except String Unit
  summarizeR : Except String (String × String)
  genTitleR : Except String String
  genThumbnailR : Except String String
  ttsR : Except String String
  storage : StorageEnv
  fal : Option FalEnv
  apnsPresent : Bool

/-- Processor.updateArticleStatus to failed, with the Exec outcome taken
from the environment; the write is applied only when the Exec succeeds,
and its own error is ignored by every caller. -/
def failWrite (env : ProcEnv) (s : Store) (id : Int) (msg : String) : Store × List Ev :=
  match env.wFailed with
  | .error _ => (s, [.updStatus id "failed" msg])
  | .ok _ =>
    (storeUpdate s id (fun r => { r with status := "failed", errorMessage := msg }),
     [.updStatus id "failed" msg])

/-- Processor.sendFailureNotification: dispatched only when an APNS
service is wired; the payload is built by SendArticleFailedNotification. -/
def notifyFailedEvs (env : ProcEnv) (errorMsg : String) : List Ev :=
  if env.apnsPresent then
    let alert := sendArticleFailedAlert errorMsg
    [.notifyFailedEv alert.title alert.body]
  else []

/-- Dispatch of SendArticleReadyNotification on the success path. -/
def notifyReadyEvs (env : ProcEnv) (title : String) : List Ev :=
  if env.apnsPresent then
    let alert := sendArticleReadyAlert title
    [.notifyReadyEv alert.title alert.body]
  else []

/-- ProcessArticle step 2, thumbnail block: generation, upload and path
persistence failures are each logged and swallowed. -/
def thumbnailStage (env : ProcEnv) (s : Store) (id : Int) (_summary : String) :
    Store × List Ev :=
  match env.genThumbnailR with
  | .error _ => (s, [.callGenThumbnail])
  | .ok data =>
    let key := GenerateThumbnailKey id
    match UploadFile env.storage key data "image/png" with
    | .error _ => (s, [.callGenThumbnail, .uploadThumbnail key])
    | .ok url =>
      match env.wSaveThumb with
      | .error _ => (s, [.callGenThumbnail, .uploadThumbnail key, .saveThumbPath])
      | .ok _ =>
        (storeUpdate s id (fun r => { r with thumbnailPath := some url }),
         [.callGenThumbnail, .uploadThumbnail key, .saveThumbPath])

/-- ProcessArticle step 3, audio block (format audio only). The third
component is true when the block returned early from ProcessArticle. -/
def audioStage (env : ProcEnv) (s : Store) (id : Int) (row : ArticleRow) :
    Store × List Ev × Bool :=
  let langStr := row.language.getD ""
  let styleStr := row.style.getD ""
  match env.ttsR with
  | .error e =>
    let failed := failWrite env s id ("Failed to convert to speech: " ++ e)
    (failed.1,
     .callTTS langStr styleStr :: (failed.2 ++ notifyFailedEvs env "Failed to convert to speech"),
     true)
  | .ok audioPath =>
    match env.wSaveAudio with
    | .error e =>
      let failed := failWrite env s id ("Failed to save audio path: " ++ e)
      (failed.1, .callTTS langStr styleStr :: .saveAudioPath :: failed.2, true)
    | .ok _ =>
      (storeUpdate s id (fun r => { r with audioFilePath := some audioPath }),
       [.callTTS langStr styleStr, .saveAudioPath], false)

/-- The duration switch of ProcessArticle step 4. -/
def durationFor (length : String) : Int :=
  if length = "s" then 10
  else if length = "m" then 30
  else if length = "l" then 60
  else 30

/-- ProcessArticle step 4, video block (format video with a wired Fal
service only). The third component is true when the block returned early
from ProcessArticle. -/
def videoStage (env : ProcEnv) (f : FalEnv) (s : Store) (id : Int)
    (length summary : String) : Store × List Ev × Bool :=
  let duration := durationFor length
  let gen := GenerateVideo f summary duration
  match gen.2 with
  | .error e =>
    let failed := failWrite env s id ("Failed to generate video: " ++ e)
    (failed.1, gen.1 ++ failed.2 ++ notifyFailedEvs env "Failed to generate video", true)
  | .ok videoURL =>
    let dl := DownloadVideo f videoURL id
    match dl.2 with
    | .error e =>
      let failed := failWrite env s id ("Failed to download video: " ++ e)
      (failed.1,
       gen.1 ++ dl.1 ++ failed.2 ++ notifyFailedEvs env "Failed to download video", true)
    | .ok videoPath =>
      let videoKey := GenerateVideoKey id
      let up := UploadVideoFile env.storage videoKey videoPath
      match up.2 with
      | .error e =>
        let failed := failWrite env s id ("Failed to upload video: " ++ e)
        (failed.1,
         gen.1 ++ dl.1 ++ up.1 ++ failed.2 ++ notifyFailedEvs env "Failed to upload video", true)
      | .ok videoStorageURL =>
        match env.wSaveVideo with
        | .error e =>
          let failed := failWrite env s id ("Failed to save video path: " ++ e)
          (failed.1, gen.1 ++ dl.1 ++ up.1 ++ [.saveVideoPath] ++ failed.2, true)
        | .ok _ =>
          (storeUpdate s id (fun r => { r with videoFilePath := some videoStorageURL }),
           gen.1 ++ dl.1 ++ up.1 ++ [.saveVideoPath], false)

/-- ProcessArticle after a successful parameter load: summarize, title,
persist, thumbnail, format-specific synthesis, ready, notify. -/
def processLoaded (env : ProcEnv) (id : Int) (s : Store) (row : ArticleRow)
    (evs0 : List Ev) : Store × List Ev :=
  let styleStr := match row.style with
    | some v => if v = "" then "summarize" else v
    | none => "summarize"
  let languageStr := match row.language with
    | some v => if v = "" then "en" else v
    | none => "en"
  let evs1 := evs0 ++ [.callSummarize row.url row.length languageStr styleStr]
  match env.summarizeR with
  | .error e =>
    let failed := failWrite env s id ("Failed to summarize: " ++ e)
    (failed.1, evs1 ++ failed.2 ++ notifyFailedEvs env "Failed to summarize")
  | .ok pair =>
    let originalContent := pair.1
    let summary := pair.2
    let title := match env.genTitleR with
      | .error _ => "Untitled Article"
      | .ok t => t
    let evs2 := evs1 ++ [.callGenTitle, .saveSummary]
    match env.wSaveSummary with
    | .error e =>
      let failed := failWrite env s id ("Failed to save summary: " ++ e)
      (failed.1, evs2 ++ failed.2)
    | .ok _ =>
      let s2 := storeUpdate s id (fun r =>
        { r with originalContent := some originalContent, title := some title,
                 summary := some summary })
      let thumbed := thumbnailStage env s2 id summary
      let evs3 := evs2 ++ thumbed.2
      let audio :=
        if row.format = "audio" then audioStage env thumbed.1 id row
        else (thumbed.1, [], false)
      if audio.2.2 then (audio.1, evs3 ++ audio.2.1)
      else
        let video :=
          if row.format = "video" then
            match env.fal with
            | some f => videoStage env f audio.1 id row.length summary
            | none => (audio.1, [], false)
          else (audio.1, [], false)
        if video.2.2 then (video.1, evs3 ++ audio.2.1 ++ video.2.1)
        else
          match env.wReady with
          | .error _ => (video.1, evs3 ++ audio.2.1 ++ video.2.1 ++ [.updStatus id "ready" ""])
          | .ok _ =>
            let s6 := storeUpdate video.1 id (fun r =>
              { r with status := "ready", errorMessage := "" })
            (s6, evs3 ++ audio.2.1 ++ video.2.1 ++ [.updStatus id "ready" ""]
                   ++ notifyReadyEvs env title)

/-- Processor.ProcessArticle: mark processing, load the job parameters,
then run the stage sequence. -/
def processArticle (env : ProcEnv) (articleID : Int) (s0 : Store) : Store × List Ev :=
  match env.wProcessing with
  | .error _ => (s0, [.updStatus articleID "processing" ""])
  | .ok _ =>
    let s1 := storeUpdate s0 articleID (fun r =>
      { r with status := "processing", errorMessage := "" })
    let evs0 : List Ev := [.updStatus articleID "processing" "", .selectArticle articleID]
    match env.selectW with
    | .error e =>
      let failed := failWrite env s1 articleID ("Failed to get article details: " ++ e)
      (failed.1, evs0 ++ failed.2)
    | .ok _ =>
      match storeLookup s1 articleID with
      | none =>
        let failed := failWrite env s1 articleID
          "Failed to get article details: sql: no rows in result set"
        (failed.1, evs0 ++ failed.2)
      | some row => processLoaded env articleID s1 row evs0

/-- A freshly created video job row with length l (scenario 3 of the
spec), before processing: status queued, no artifacts. -/
def rowVideoL : ArticleRow :=
  { url := "http://a", format := "video", length := "l", language := none, style := none,
    status := "queued", errorMessage := "", originalContent := none, title := none,
    summary := none, thumbnailPath := none, audioFilePath := none, videoFilePath := none,
    durationSeconds := none }

/-- A PENDING status response from the remote video service. -/
def pendingStatus : SoraStatusResponse :=
  { requestID := "r1", status := "PENDING", responseURL := "", error := "", output := none }

/-- A COMPLETED status response carrying the indirection URL. -/
def completedStatus : SoraStatusResponse :=
  { requestID := "r1", status := "COMPLETED", responseURL := "https://fal/result",
    error := "", output := none }

/-- Fal environment of scenario 3: submission succeeds, three PENDING
polls then COMPLETED, the result fetch yields a nested data.video.url,
and the download succeeds. -/
def falScenario : FalEnv :=
  { apiKey := "k", submitR := .ok "r1",
    pollR := fun i => if i < 3 then .ok pendingStatus else .ok completedStatus,
    fetchR := fun _ => .ok
      [("data", .obj [("video", .obj [("url", .str "https://cdn/video.mp4")])])],
    downloadR := fun _ => .ok (), nowUnix := 111 }

/-- Storage environment in which every upload succeeds. -/
def storageOK : StorageEnv :=
  { endpoint := "https://s", bucketName := "b", putThumbR := .ok (),
    uploadVideoR := .ok "https://s/videos/article_1.mp4" }

/-- Run environment of scenario 3: every write and capability succeeds
(the thumbnail generator fails, which is non-critical and not part of
the scenario), the Fal service is wired, no notification target. -/
def envScenario3 : ProcEnv :=
  { wProcessing := .ok (), selectW := .ok (), wFailed := .ok (), wSaveSummary := .ok (),
    wSaveThumb := .ok (), wSaveAudio := .ok (), wSaveVideo := .ok (), wReady := .ok (),
    summarizeR := .ok ("content", "sum"), genTitleR := .ok "T",
    genThumbnailR := .error "no thumb", ttsR := .error "unused",
    storage := storageOK, fal := some falScenario, apnsPresent := false }

/-- The search order claimed by the spec for the result-fetch response:
top-level url first, then video.url, then data.video.url, then data.url
(written from the claim, to be compared with extractVideoURL). -/
def claimOrderSearch (result : List (String × JVal)) : Except String String :=
  match getStr result "url" with
  | some url => .ok url
  | none =>
  match (getObj result "video").bind (fun video => getStr video "url") with
  | some url => .ok url
  | none =>
  match (getObj result "data").bind
      (fun data => (getObj data "video").bind (fun video => getStr video "url")) with
  | some url => .ok url
  | none =>
  match (getObj result "data").bind (fun data => getStr data "url") with
  | some url => .ok url
  | none => .error "video URL not found in result response"

/-- The search order the code implements: video.url first, then
data.video.url, then data.url, and top-level url last (written from the
amended claim, to be compared with extractVideoURL). -/
def orderedSearch (result : List (String × JVal)) : Except String String :=
  match (getObj result "video").bind (fun video => getStr video "url") with
  | some url => .ok url
  | none =>
  match (getObj result "data").bind
      (fun data => (getObj data "video").bind (fun video => getStr video "url")) with
  | some url => .ok url
  | none =>
  match (getObj result "data").bind (fun data => getStr data "url") with
  | some url => .ok url
  | none =>
  match getStr result "url" with
  | some url => .ok url
  | none => .error "video URL not found in result response"

/-- A result body carrying both a top-level url and a nested video.url:
the two search orders disagree on it. -/
def bothShapesResult : List (String × JVal) :=
  [("url", .str "A"), ("video", .obj [("url", .str "B")])]

/-- C3 counterexample: on a response with both a top-level url A and a
nested video.url B, the code returns B while the claimed precedence
(top-level url first) would return A, so the claimed order is not the
order the code implements. -/
theorem fetch_order_counterexample :
    extractVideoURL bothShapesResult = .ok "B" ∧
    claimOrderSearch bothShapesResult = .ok "A" ∧
    ("B" : String) ≠ "A" :=
  ⟨rfl, rfl, by decide⟩

/-- C3 (amended): the final video location is searched in the fixed
precedence order nested video.url, then data.video.url, then data.url,
then top-level url; if none of these shapes match, the fetch fails with
a fatal error. -/
theorem fetch_order_correct (result : List (String × JVal)) :
    extractVideoURL result = orderedSearch result := by
  unfold extractVideoURL orderedSearch
  cases hv : (getObj result "video").bind (fun video => getStr video "url") with
  | some u => rfl
  | none =>
    cases hd : getObj result "data" with
    | none => simp
    | some data =>
      cases hdv : (getObj data "video").bind (fun video => getStr video "url") with
      | some u => simp [hdv]
      | none =>
        cases hdu : getStr data "url" with
        | some u => simp [hdv, hdu]
        | none =>
          cases hu : getStr result "url" <;> simp [hdv, hdu, hu]

/-- Trace of q poll iterations starting at a given attempt index: each
status query is immediately preceded by a fixed 5-second sleep. -/
def pollBlocks : Nat → Nat → List Ev
  | _, 0 => []
  | start, q + 1 => .videoSleep 5 :: .videoQuery start :: pollBlocks (start + 1) q

theorem pollAux_shape (f : FalEnv) :
    ∀ fuel attempt, ∃ q fext, q ≤ fuel ∧
      (pollAux f attempt fuel).1 = pollBlocks attempt q ++ fext ∧
      (fext = [] ∨ ∃ u, fext = [Ev.videoFetch u]) := by
  intro fuel
  induction fuel with
  | zero => exact fun attempt => ⟨0, [], Nat.le_refl 0, rfl, Or.inl rfl⟩
  | succ fuel ih =>
    intro attempt
    match hp : f.pollR attempt with
    | .error e =>
      exact ⟨1, [], Nat.succ_le_succ (Nat.zero_le _), by simp [pollAux, hp, pollBlocks],
        Or.inl rfl⟩
    | .ok st =>
      by_cases hc : st.status = "COMPLETED"
      · by_cases hr : st.responseURL = ""
        · refine ⟨1, [], Nat.succ_le_succ (Nat.zero_le _), ?_, Or.inl rfl⟩
          simp only [pollAux, hp, hc, if_true, hr, pollBlocks]
          cases st.output with
          | none => simp
          | some out =>
            cases hgv : getStr out "video" with
            | some v => simp [hgv]
            | none => cases hgu : getStr out "url" <;> simp [hgv, hgu]
        · refine ⟨1, [Ev.videoFetch st.responseURL], Nat.succ_le_succ (Nat.zero_le _), ?_,
            Or.inr ⟨st.responseURL, rfl⟩⟩
          simp only [pollAux, hp, hc, if_true, hr, if_false, pollBlocks]
          cases fetchVideoURL f st.responseURL <;> simp
      · by_cases hf : st.status = "FAILED"
        · exact ⟨1, [], Nat.succ_le_succ (Nat.zero_le _),
            by simp [pollAux, hp, hc, hf, pollBlocks], Or.inl rfl⟩
        · by_cases hpp : st.status = "PENDING" ∨ st.status = "PROCESSING"
          · obtain ⟨q, fext, hq, he, hfx⟩ := ih (attempt + 1)
            refine ⟨q + 1, fext, Nat.succ_le_succ hq, ?_, hfx⟩
            simp [pollAux, hp, hc, hf, hpp, pollBlocks, he]
          · exact ⟨1, [], Nat.succ_le_succ (Nat.zero_le _),
              by simp [pollAux, hp, hc, hf, hpp, pollBlocks], Or.inl rfl⟩

theorem pollAux_timeout (f : FalEnv) :
    ∀ fuel attempt,
      (∀ i, attempt ≤ i → i < attempt + fuel →
        ∃ st, f.pollR i = .ok st ∧ (st.status = "PENDING" ∨ st.status = "PROCESSING")) →
      (pollAux f attempt fuel).2 = .error "video generation timed out after 60 attempts" := by
  intro fuel
  induction fuel with
  | zero => intro attempt _; rfl
  | succ fuel ih =>
    intro attempt h
    obtain ⟨st, hp, hpp⟩ := h attempt (Nat.le_refl _) (by omega)
    have hc : ¬ st.status = "COMPLETED" := by
      rcases hpp with h1 | h1 <;> simp [h1]
    have hf : ¬ st.status = "FAILED" := by
      rcases hpp with h1 | h1 <;> simp [h1]
    have ihres := ih (attempt + 1) (fun i h1 h2 => h i (by omega) (by omega))
    simp [pollAux, hp, hc, hf, hpp, ihres]

/-- C6: the video poll loop performs at most 60 status queries, each
immediately preceded by a fixed 5-second sleep (the trace is a prefix of
query blocks, followed at most by the result fetch); if every one of the
60 attempts reports a non-terminal remote state, the stage fails with
the timeout error, and that timeout error differs from every error the
remote FAILED status can produce. -/
theorem poll_loop_bounded (f : FalEnv) (requestID : String) :
    (∃ q fext, q ≤ 60 ∧
      (pollForCompletion f requestID).1 = pollBlocks 0 q ++ fext ∧
      (fext = [] ∨ ∃ u, fext = [Ev.videoFetch u])) ∧
    ((∀ i, i < 60 →
        ∃ st, f.pollR i = .ok st ∧ (st.status = "PENDING" ∨ st.status = "PROCESSING")) →
      (pollForCompletion f requestID).2 =
        .error "video generation timed out after 60 attempts") ∧
    (∀ msg, ("video generation timed out after 60 attempts" : String) ≠
      "video generation failed: " ++ msg) := by
  refine ⟨pollAux_shape f 60 0, ?_, ?_⟩
  · intro h
    exact pollAux_timeout f 60 0 (fun i h1 h2 => h i (by omega))
  · intro msg h
    have h2 := congrArg String.data h
    rw [String.data_append] at h2
    have h3 : List.IsPrefix ("video generation failed: ").data
        ("video generation timed out after 60 attempts").data := ⟨msg.data, h2.symm⟩
    exact absurd h3 (by decide)

/-- A Fal environment whose remote status is PENDING forever. -/
def falAllPending : FalEnv :=
  { apiKey := "k", submitR := .ok "r1", pollR := fun _ => .ok pendingStatus,
    fetchR := fun _ => .error "unused", downloadR := fun _ => .error "unused",
    nowUnix := 0 }

/-- Witness for C6: on a service that stays PENDING for all 60 attempts,
the loop produces exactly 60 sleep-query blocks and the timeout error. -/
theorem poll_loop_bounded_witness :
    (pollForCompletion falAllPending "r1").2 =
      .error "video generation timed out after 60 attempts" ∧
    (pollForCompletion falAllPending "r1").1 = pollBlocks 0 60 := by
  have h := poll_loop_bounded falAllPending "r1"
  refine ⟨h.2.1 (fun i _ => ⟨pendingStatus, rfl, Or.inl rfl⟩), by decide⟩

theorem storeUpdate_cons (k : Int) (r : ArticleRow) (rest : Store) (id : Int)
    (f : ArticleRow → ArticleRow) :
    storeUpdate ((k, r) :: rest) id f =
      (if k = id then (k, f r) else (k, r)) :: storeUpdate rest id f := rfl

theorem storeLookup_cons (k : Int) (r : ArticleRow) (rest : Store) (id : Int) :
    storeLookup ((k, r) :: rest) id =
      if k = id then some r else storeLookup rest id := rfl

theorem storeUpdate_of_lookup_none (s : Store) (id : Int)
    (h : storeLookup s id = none) (f : ArticleRow → ArticleRow) :
    storeUpdate s id f = s := by
  induction s with
  | nil => rfl
  | cons p rest ih =>
    obtain ⟨k, r⟩ := p
    rw [storeLookup_cons] at h
    by_cases hk : k = id
    · rw [if_pos hk] at h
      exact absurd h (by simp)
    · rw [if_neg hk] at h
      rw [storeUpdate_cons, if_neg hk, ih h]

theorem storeLookup_storeUpdate (s : Store) (id : Int) (f : ArticleRow → ArticleRow) :
    storeLookup (storeUpdate s id f) id = (storeLookup s id).map f := by
  induction s with
  | nil => rfl
  | cons p rest ih =>
    obtain ⟨k, r⟩ := p
    by_cases hk : k = id
    · rw [storeUpdate_cons, if_pos hk, storeLookup_cons, storeLookup_cons,
        if_pos hk, if_pos hk]
      rfl
    · rw [storeUpdate_cons, if_neg hk, storeLookup_cons, storeLookup_cons,
        if_neg hk, if_neg hk, ih]

/-- Recognizer for a failure-notification dispatch event. -/
def isFailNotify : Ev → Bool
  | .notifyFailedEv _ _ => true
  | _ => false

/-- Recognizer for a persisted status write to ready. -/
def isReadyStatus : Ev → Bool
  | .updStatus _ st _ => st = "ready"
  | _ => false

/-- Recognizer for any invocation of an audio or video synthesis
capability (speech synthesis or any step of the video sub-pipeline). -/
def isSynthCall : Ev → Bool
  | .callTTS _ _ => true
  | .videoSubmit _ _ => true
  | .videoSleep _ => true
  | .videoQuery _ => true
  | .videoFetch _ => true
  | .videoDownload _ => true
  | .createFile _ => true
  | .uploadVideo _ _ => true
  | .deleteFile _ => true
  | _ => false

/-- Containment of a character segment, by scanning every suffix. -/
def containsSeg : List Char → List Char → Bool
  | [], needle => needle.isEmpty
  | c :: rest, needle => List.isPrefixOf needle (c :: rest) || containsSeg rest needle

/-- Whether the needle occurs as a contiguous substring of the haystack. -/
def strContains (hay needle : String) : Bool :=
  containsSeg hay.data needle.data

/-- Whether any text field of an alert mentions the given string. -/
def alertMentions (a : APSAlert) (s : String) : Bool :=
  strContains a.title s || strContains a.body s || strContains a.subtitle s

/-- C7 counterexample: the alert built for a failed job whose failure
reason is the dispatched message Failed to summarize mentions that
reason nowhere — the payload is the same fixed alert built for an empty
reason, so the failed payload does not include a short reason describing
the failure. -/
theorem failed_payload_counterexample :
    alertMentions (sendArticleFailedAlert "Failed to summarize") "Failed to summarize" = false ∧
    sendArticleFailedAlert "Failed to summarize" = sendArticleFailedAlert "" := by
  refine ⟨by decide, rfl⟩

/-- C7 (amended): the failed-notification payload is one fixed generic
alert, independent of the failure reason passed to the dispatcher, while
the ready-notification payload embeds the job title in its body. -/
theorem notification_payloads :
    (∀ errorMsg, sendArticleFailedAlert errorMsg =
      { title := "Article Processing Failed"
        body := "There was an error processing your article"
        subtitle := "" }) ∧
    (∀ title, (sendArticleReadyAlert title).body =
        "Your article \x27" ++ title ++ "\x27 is ready to read" ∧
      ∃ pre post, pre ++ title ++ post = (sendArticleReadyAlert title).body) :=
  ⟨fun _ => rfl,
   fun _ => ⟨rfl, "Your article \x27", "\x27 is ready to read", rfl⟩⟩

/-- C5 counterexample: in the successful video scenario (format video,
length l, PENDING three times then COMPLETED, fetch via data.video.url,
download and upload succeed) the duration requested from the synthesizer
is 60 and the final record is ready with video_file_path set, but
duration_seconds is never written by the processor: it remains unset
rather than 60. -/
theorem video_duration_counterexample :
    Ev.videoSubmit "sum" 60 ∈ (processArticle envScenario3 1 [(1, rowVideoL)]).2 ∧
    (storeLookup (processArticle envScenario3 1 [(1, rowVideoL)]).1 1).map
      ArticleRow.status = some "ready" ∧
    (storeLookup (processArticle envScenario3 1 [(1, rowVideoL)]).1 1).map
      ArticleRow.durationSeconds = some none ∧
    some (none : Option Int) ≠ some (some 60) := by
  refine ⟨by decide, by decide, by decide, by decide⟩

/-- C5 (amended): for the video job with length l whose submit, poll,
result fetch, download and upload all succeed, the requested duration is
60 seconds and the final record is ready with video_file_path set to the
durable URL; duration_seconds is not written by the processor and
remains unset. -/
theorem video_length_l_scenario :
    Ev.videoSubmit "sum" 60 ∈ (processArticle envScenario3 1 [(1, rowVideoL)]).2 ∧
    (storeLookup (processArticle envScenario3 1 [(1, rowVideoL)]).1 1).map
      ArticleRow.status = some "ready" ∧
    (storeLookup (processArticle envScenario3 1 [(1, rowVideoL)]).1 1).map
      ArticleRow.videoFilePath = some (some "https://s/videos/article_1.mp4") ∧
    (storeLookup (processArticle envScenario3 1 [(1, rowVideoL)]).1 1).map
      ArticleRow.durationSeconds = some none := by
  refine ⟨by decide, by decide, by decide, by decide⟩

/-- C10: processing a job identifier with no persisted record touches no
capability and dispatches no notification: the processing write matches
zero rows and succeeds, the parameter load fails with the no-rows error,
the failed write also matches zero rows, and the store is returned
unchanged — the whole run is exactly those three database interactions. -/
theorem missing_row_noop (env : ProcEnv) (id : Int) (s0 : Store)
    (hmiss : storeLookup s0 id = none)
    (hp : env.wProcessing = .ok ()) (hs : env.selectW = .ok ())
    (hf : env.wFailed = .ok ()) :
    processArticle env id s0 =
      (s0, [.updStatus id "processing" "", .selectArticle id,
            .updStatus id "failed" "Failed to get article details: sql: no rows in result set"]) := by
  simp [processArticle, hp, hs, failWrite, hf,
    storeUpdate_of_lookup_none s0 id hmiss, hmiss]

/-- Environment in which every write and capability succeeds, no video
service is wired, and a notification target is configured. -/
def envAllOk : ProcEnv :=
  { wProcessing := .ok (), selectW := .ok (), wFailed := .ok (), wSaveSummary := .ok (),
    wSaveThumb := .ok (), wSaveAudio := .ok (), wSaveVideo := .ok (), wReady := .ok (),
    summarizeR := .ok ("content", "sum"), genTitleR := .ok "T",
    genThumbnailR := .ok "IMG", ttsR := .ok "audio/a1.mp3",
    storage := storageOK, fal := none, apnsPresent := true }

/-- Witness for C10 at a concrete empty store. -/
theorem missing_row_noop_witness :
    processArticle envAllOk 1 [] =
      ([], [.updStatus 1 "processing" "", .selectArticle 1,
            .updStatus 1 "failed" "Failed to get article details: sql: no rows in result set"]) :=
  missing_row_noop envAllOk 1 [] rfl rfl rfl rfl

/-- A freshly created text job row, before processing. -/
def rowText : ArticleRow := { rowVideoL with format := "text" }

/-- C8: a run in which title generation fails is the same run as one in
which it returned the fixed fallback title Untitled Article — the
failure is absorbed without touching status — and status ready is still
reached on a concrete run whose title stage fails. -/
theorem title_failure_fallback :
    (∀ (env : ProcEnv) (e : String) (id : Int) (s0 : Store),
      processArticle { env with genTitleR := .error e } id s0 =
        processArticle { env with genTitleR := .ok "Untitled Article" } id s0) ∧
    Ev.updStatus 1 "ready" "" ∈
      (processArticle { envAllOk with genTitleR := .error "boom" } 1 [(1, rowText)]).2 := by
  refine ⟨fun env e id s0 => rfl, by decide⟩

theorem failWrite_snd (env : ProcEnv) (s : Store) (id : Int) (msg : String) :
    (failWrite env s id msg).2 = [Ev.updStatus id "failed" msg] := by
  cases h : env.wFailed <;> simp [failWrite, h]

theorem failWrite_store (env : ProcEnv) (s : Store) (id : Int) (msg : String) :
    (failWrite env s id msg).1 = s ∨
    (failWrite env s id msg).1 =
      storeUpdate s id (fun r => { r with status := "failed", errorMessage := msg }) := by
  cases h : env.wFailed
  · exact Or.inl (by simp [failWrite, h])
  · exact Or.inr (by simp [failWrite, h])

theorem failWrite_store_ok (env : ProcEnv) (s : Store) (id : Int) (msg : String)
    (h : env.wFailed = .ok ()) :
    (failWrite env s id msg).1 =
      storeUpdate s id (fun r => { r with status := "failed", errorMessage := msg }) := by
  simp [failWrite, h]

theorem notifyFailedEvs_mem (env : ProcEnv) (msg : String) (e : Ev)
    (he : e ∈ notifyFailedEvs env msg) :
    e = Ev.notifyFailedEv "Article Processing Failed"
          "There was an error processing your article" := by
  unfold notifyFailedEvs at he
  cases h : env.apnsPresent <;> rw [h] at he <;> simp at he
  exact he

theorem notifyReadyEvs_mem (env : ProcEnv) (title : String) (e : Ev)
    (he : e ∈ notifyReadyEvs env title) :
    e = Ev.notifyReadyEv "Article Ready!" (readyNotificationBody title) := by
  unfold notifyReadyEvs at he
  cases h : env.apnsPresent <;> rw [h] at he <;> simp at he
  exact he

theorem thumbnailStage_mem (env : ProcEnv) (s : Store) (id : Int) (sm : String) (e : Ev)
    (he : e ∈ (thumbnailStage env s id sm).2) :
    e = Ev.callGenThumbnail ∨ (∃ k, e = Ev.uploadThumbnail k) ∨ e = Ev.saveThumbPath := by
  unfold thumbnailStage at he
  cases hg : env.genThumbnailR with
  | error e2 => simp only [hg] at he; simp at he; exact Or.inl he
  | ok d =>
    simp only [hg] at he
    cases hu : UploadFile env.storage (GenerateThumbnailKey id) d "image/png" with
    | error e2 =>
      simp only [hu] at he
      simp at he
      rcases he with h | h
      · exact Or.inl h
      · exact Or.inr (Or.inl ⟨_, h⟩)
    | ok url =>
      simp only [hu] at he
      cases hw : env.wSaveThumb <;> simp only [hw] at he <;> simp at he <;>
        rcases he with h | h | h
      · exact Or.inl h
      · exact Or.inr (Or.inl ⟨_, h⟩)
      · exact Or.inr (Or.inr h)
      · exact Or.inl h
      · exact Or.inr (Or.inl ⟨_, h⟩)
      · exact Or.inr (Or.inr h)

theorem pollAux_mem (f : FalEnv) :
    ∀ fuel attempt e, e ∈ (pollAux f attempt fuel).1 →
      (∃ n, e = Ev.videoSleep n) ∨ (∃ n, e = Ev.videoQuery n) ∨
      (∃ u, e = Ev.videoFetch u) := by
  intro fuel
  induction fuel with
  | zero => intro attempt e he; simp [pollAux] at he
  | succ fuel ih =>
    intro attempt e he
    rw [pollAux] at he
    cases hp : f.pollR attempt with
    | error e2 =>
      simp only [hp] at he
      simp at he
      rcases he with h | h
      · exact Or.inl ⟨_, h⟩
      · exact Or.inr (Or.inl ⟨_, h⟩)
    | ok st =>
      simp only [hp] at he
      by_cases hc : st.status = "COMPLETED"
      · rw [if_pos hc] at he
        by_cases hr : st.responseURL = ""
        · rw [if_pos hr] at he
          have hsmall : e = Ev.videoSleep 5 ∨ e = Ev.videoQuery attempt := by
            cases ho : st.output with
            | none => simp only [ho] at he; simpa using he
            | some out =>
              simp only [ho] at he
              cases hgv : getStr out "video" with
              | some v => simp only [hgv] at he; simpa using he
              | none =>
                simp only [hgv] at he
                cases hgu : getStr out "url" <;> simp only [hgu] at he <;> simpa using he
          rcases hsmall with h | h
          · exact Or.inl ⟨_, h⟩
          · exact Or.inr (Or.inl ⟨_, h⟩)
        · rw [if_neg hr] at he
          have hsmall : e = Ev.videoSleep 5 ∨ e = Ev.videoQuery attempt ∨
              e = Ev.videoFetch st.responseURL := by
            cases hf : fetchVideoURL f st.responseURL <;> rw [hf] at he <;> simpa using he
          rcases hsmall with h | h | h
          · exact Or.inl ⟨_, h⟩
          · exact Or.inr (Or.inl ⟨_, h⟩)
          · exact Or.inr (Or.inr ⟨_, h⟩)
      · rw [if_neg hc] at he
        by_cases hfl : st.status = "FAILED"
        · rw [if_pos hfl] at he
          simp at he
          rcases he with h | h
          · exact Or.inl ⟨_, h⟩
          · exact Or.inr (Or.inl ⟨_, h⟩)
        · rw [if_neg hfl] at he
          by_cases hpp : st.status = "PENDING" ∨ st.status = "PROCESSING"
          · rw [if_pos hpp] at he
            simp at he
            rcases he with h | h | h
            · exact Or.inl ⟨_, h⟩
            · exact Or.inr (Or.inl ⟨_, h⟩)
            · exact ih (attempt + 1) e h
          · rw [if_neg hpp] at he
            simp at he
            rcases he with h | h
            · exact Or.inl ⟨_, h⟩
            · exact Or.inr (Or.inl ⟨_, h⟩)

theorem GenerateVideo_mem (f : FalEnv) (p : String) (d : Int) (e : Ev)
    (he : e ∈ (GenerateVideo f p d).1) :
    (∃ pr du, e = Ev.videoSubmit pr du) ∨ (∃ n, e = Ev.videoSleep n) ∨
    (∃ n, e = Ev.videoQuery n) ∨ (∃ u, e = Ev.videoFetch u) := by
  unfold GenerateVideo at he
  by_cases hk : f.apiKey = ""
  · rw [if_pos hk] at he; simp at he
  · rw [if_neg hk] at he
    cases hs : f.submitR with
    | error e2 =>
      simp only [hs] at he
      simp at he
      exact Or.inl ⟨_, _, he⟩
    | ok rid =>
      simp only [hs] at he
      have hrest : e = Ev.videoSubmit p d ∨ e ∈ (pollForCompletion f rid).1 := by
        cases hr : (pollForCompletion f rid).2 <;> rw [hr] at he <;> simpa using he
      rcases hrest with h | h
      · exact Or.inl ⟨_, _, h⟩
      · rcases pollAux_mem f 60 0 e h with h2 | h2 | h2
        · exact Or.inr (Or.inl h2)
        · exact Or.inr (Or.inr (Or.inl h2))
        · exact Or.inr (Or.inr (Or.inr h2))

theorem audioStage_mem (env : ProcEnv) (s : Store) (id : Int) (row : ArticleRow) (e : Ev)
    (he : e ∈ (audioStage env s id row).2.1) :
    (∃ l st, e = Ev.callTTS l st) ∨ e = Ev.saveAudioPath ∨
    (∃ m, e = Ev.updStatus id "failed" m) ∨
    (∃ t b, e = Ev.notifyFailedEv t b) := by
  unfold audioStage at he
  cases ht : env.ttsR with
  | error e2 =>
    simp only [ht] at he
    simp at he
    rcases he with h | h
    · exact Or.inl ⟨_, _, h⟩
    · rcases h with h2 | h2
      · rw [failWrite_snd] at h2
        simp at h2
        exact Or.inr (Or.inr (Or.inl ⟨_, h2⟩))
      · exact Or.inr (Or.inr (Or.inr (by
          rw [notifyFailedEvs_mem env _ e h2]; exact ⟨_, _, rfl⟩)))
  | ok ap =>
    simp only [ht] at he
    cases hw : env.wSaveAudio with
    | error e2 =>
      simp only [hw] at he
      simp at he
      rcases he with h | h | h
      · exact Or.inl ⟨_, _, h⟩
      · exact Or.inr (Or.inl h)
      · rw [failWrite_snd] at h
        simp at h
        exact Or.inr (Or.inr (Or.inl ⟨_, h⟩))
    | ok u =>
      simp only [hw] at he
      simp at he
      rcases he with h | h
      · exact Or.inl ⟨_, _, h⟩
      · exact Or.inr (Or.inl h)

theorem DownloadVideo_mem (f : FalEnv) (url : String) (id : Int) (e : Ev)
    (he : e ∈ (DownloadVideo f url id).1) :
    (∃ u, e = Ev.videoDownload u) ∨ (∃ p, e = Ev.createFile p) := by
  unfold DownloadVideo at he
  cases hd : f.downloadR url <;> simp only [hd] at he <;> simp at he
  · exact Or.inl ⟨_, he⟩
  · rcases he with h | h
    · exact Or.inl ⟨_, h⟩
    · exact Or.inr ⟨_, h⟩

theorem UploadVideoFile_mem (st : StorageEnv) (key localPath : String) (e : Ev)
    (he : e ∈ (UploadVideoFile st key localPath).1) :
    (∃ k p, e = Ev.uploadVideo k p) ∨ (∃ p, e = Ev.deleteFile p) := by
  unfold UploadVideoFile at he
  cases hu : st.uploadVideoR <;> simp only [hu] at he <;> simp at he
  · exact Or.inl ⟨_, _, he⟩
  · rcases he with h | h
    · exact Or.inl ⟨_, _, h⟩
    · exact Or.inr ⟨_, h⟩

theorem videoStage_mem (env : ProcEnv) (f : FalEnv) (s : Store) (id : Int)
    (len sm : String) (e : Ev) (he : e ∈ (videoStage env f s id len sm).2.1) :
    (∃ pr du, e = Ev.videoSubmit pr du) ∨ (∃ n, e = Ev.videoSleep n) ∨
    (∃ n, e = Ev.videoQuery n) ∨ (∃ u, e = Ev.videoFetch u) ∨
    (∃ u, e = Ev.videoDownload u) ∨ (∃ p, e = Ev.createFile p) ∨
    (∃ k p, e = Ev.uploadVideo k p) ∨ (∃ p, e = Ev.deleteFile p) ∨
    e = Ev.saveVideoPath ∨ (∃ m, e = Ev.updStatus id "failed" m) ∨
    (∃ t b, e = Ev.notifyFailedEv t b) := by
  unfold videoStage at he
  cases hg : (GenerateVideo f sm (durationFor len)).2 with
  | error e2 =>
    simp only [hg] at he
    simp at he
    rcases he with h | h | h
    · rcases GenerateVideo_mem f sm (durationFor len) e h with h2 | h2 | h2 | h2
      · exact Or.inl h2
      · exact Or.inr (Or.inl h2)
      · exact Or.inr (Or.inr (Or.inl h2))
      · exact Or.inr (Or.inr (Or.inr (Or.inl h2)))
    · rw [failWrite_snd] at h
      simp at h
      exact Or.inr (Or.inr (Or.inr (Or.inr (Or.inr (Or.inr (Or.inr (Or.inr
        (Or.inr (Or.inl ⟨_, h⟩)))))))))
    · rw [notifyFailedEvs_mem env _ e h]
      exact Or.inr (Or.inr (Or.inr (Or.inr (Or.inr (Or.inr (Or.inr (Or.inr
        (Or.inr (Or.inr ⟨_, _, rfl⟩)))))))))
  | ok url =>
    simp only [hg] at he
    cases hd : (DownloadVideo f url id).2 with
    | error e2 =>
      simp only [hd] at he
      simp at he
      rcases he with h | h | h | h
      · rcases GenerateVideo_mem f sm (durationFor len) e h with h2 | h2 | h2 | h2
        · exact Or.inl h2
        · exact Or.inr (Or.inl h2)
        · exact Or.inr (Or.inr (Or.inl h2))
        · exact Or.inr (Or.inr (Or.inr (Or.inl h2)))
      · rcases DownloadVideo_mem f url id e h with h2 | h2
        · exact Or.inr (Or.inr (Or.inr (Or.inr (Or.inl h2))))
        · exact Or.inr (Or.inr (Or.inr (Or.inr (Or.inr (Or.inl h2)))))
      · rw [failWrite_snd] at h
        simp at h
        exact Or.inr (Or.inr (Or.inr (Or.inr (Or.inr (Or.inr (Or.inr (Or.inr
          (Or.inr (Or.inl ⟨_, h⟩)))))))))
      · rw [notifyFailedEvs_mem env _ e h]
        exact Or.inr (Or.inr (Or.inr (Or.inr (Or.inr (Or.inr (Or.inr (Or.inr
          (Or.inr (Or.inr ⟨_, _, rfl⟩)))))))))
    | ok vp =>
      simp only [hd] at he
      cases hu : (UploadVideoFile env.storage (GenerateVideoKey id) vp).2 with
      | error e2 =>
        simp only [hu] at he
        simp at he
        rcases he with h | h | h | h | h
        · rcases GenerateVideo_mem f sm (durationFor len) e h with h2 | h2 | h2 | h2
          · exact Or.inl h2
          · exact Or.inr (Or.inl h2)
          · exact Or.inr (Or.inr (Or.inl h2))
          · exact Or.inr (Or.inr (Or.inr (Or.inl h2)))
        · rcases DownloadVideo_mem f url id e h with h2 | h2
          · exact Or.inr (Or.inr (Or.inr (Or.inr (Or.inl h2))))
          · exact Or.inr (Or.inr (Or.inr (Or.inr (Or.inr (Or.inl h2)))))
        · rcases UploadVideoFile_mem env.storage (GenerateVideoKey id) vp e h with h2 | h2
          · exact Or.inr (Or.inr (Or.inr (Or.inr (Or.inr (Or.inr (Or.inl h2))))))
          · exact Or.inr (Or.inr (Or.inr (Or.inr (Or.inr (Or.inr (Or.inr (Or.inl h2)))))))
        · rw [failWrite_snd] at h
          simp at h
          exact Or.inr (Or.inr (Or.inr (Or.inr (Or.inr (Or.inr (Or.inr (Or.inr
            (Or.inr (Or.inl ⟨_, h⟩)))))))))
        · rw [notifyFailedEvs_mem env _ e h]
          exact Or.inr (Or.inr (Or.inr (Or.inr (Or.inr (Or.inr (Or.inr (Or.inr
            (Or.inr (Or.inr ⟨_, _, rfl⟩)))))))))
      | ok vurl =>
        cases hw : env.wSaveVideo with
        | error e2 =>
          simp only [hu, hw] at he
          simp at he
          rcases he with h | h | h | h | h
          · rcases GenerateVideo_mem f sm (durationFor len) e h with h2 | h2 | h2 | h2
            · exact Or.inl h2
            · exact Or.inr (Or.inl h2)
            · exact Or.inr (Or.inr (Or.inl h2))
            · exact Or.inr (Or.inr (Or.inr (Or.inl h2)))
          · rcases DownloadVideo_mem f url id e h with h2 | h2
            · exact Or.inr (Or.inr (Or.inr (Or.inr (Or.inl h2))))
            · exact Or.inr (Or.inr (Or.inr (Or.inr (Or.inr (Or.inl h2)))))
          · rcases UploadVideoFile_mem env.storage (GenerateVideoKey id) vp e h with h2 | h2
            · exact Or.inr (Or.inr (Or.inr (Or.inr (Or.inr (Or.inr (Or.inl h2))))))
            · exact Or.inr (Or.inr (Or.inr (Or.inr (Or.inr (Or.inr (Or.inr (Or.inl h2)))))))
          · exact Or.inr (Or.inr (Or.inr (Or.inr (Or.inr (Or.inr (Or.inr (Or.inr
              (Or.inl h))))))))
          · rw [failWrite_snd] at h
            simp at h
            exact Or.inr (Or.inr (Or.inr (Or.inr (Or.inr (Or.inr (Or.inr (Or.inr
              (Or.inr (Or.inl ⟨_, h⟩)))))))))
        | ok u2 =>
          simp only [hu, hw] at he
          simp at he
          rcases he with h | h | h | h
          · rcases GenerateVideo_mem f sm (durationFor len) e h with h2 | h2 | h2 | h2
            · exact Or.inl h2
            · exact Or.inr (Or.inl h2)
            · exact Or.inr (Or.inr (Or.inl h2))
            · exact Or.inr (Or.inr (Or.inr (Or.inl h2)))
          · rcases DownloadVideo_mem f url id e h with h2 | h2
            · exact Or.inr (Or.inr (Or.inr (Or.inr (Or.inl h2))))
            · exact Or.inr (Or.inr (Or.inr (Or.inr (Or.inr (Or.inl h2)))))
          · rcases UploadVideoFile_mem env.storage (GenerateVideoKey id) vp e h with h2 | h2
            · exact Or.inr (Or.inr (Or.inr (Or.inr (Or.inr (Or.inr (Or.inl h2))))))
            · exact Or.inr (Or.inr (Or.inr (Or.inr (Or.inr (Or.inr (Or.inr (Or.inl h2)))))))
          · exact Or.inr (Or.inr (Or.inr (Or.inr (Or.inr (Or.inr (Or.inr (Or.inr
              (Or.inl h))))))))

theorem thumbnailStage_store (env : ProcEnv) (s : Store) (id : Int) (sm : String) :
    (thumbnailStage env s id sm).1 = s ∨
    ∃ url, (thumbnailStage env s id sm).1 =
      storeUpdate s id (fun r => { r with thumbnailPath := some url }) := by
  unfold thumbnailStage
  cases hg : env.genThumbnailR with
  | error e => simp only [hg]; exact Or.inl trivial
  | ok d =>
    simp only [hg]
    cases hu : UploadFile env.storage (GenerateThumbnailKey id) d "image/png" with
    | error e => simp only [hu]; exact Or.inl trivial
    | ok url =>
      simp only [hu]
      cases hw : env.wSaveThumb with
      | error e => simp only [hw]; exact Or.inl trivial
      | ok u => simp only [hw]; exact Or.inr ⟨url, rfl⟩

theorem failWrite_lookup_audio (env : ProcEnv) (s : Store) (id : Int) (msg : String) :
    (storeLookup (failWrite env s id msg).1 id).map ArticleRow.audioFilePath =
      (storeLookup s id).map ArticleRow.audioFilePath := by
  cases h : env.wFailed <;>
    simp [failWrite, h, storeLookup_storeUpdate] <;>
    cases storeLookup s id <;> simp

theorem failWrite_lookup_video (env : ProcEnv) (s : Store) (id : Int) (msg : String) :
    (storeLookup (failWrite env s id msg).1 id).map ArticleRow.videoFilePath =
      (storeLookup s id).map ArticleRow.videoFilePath := by
  cases h : env.wFailed <;>
    simp [failWrite, h, storeLookup_storeUpdate] <;>
    cases storeLookup s id <;> simp

theorem thumb_lookup_audio (env : ProcEnv) (s : Store) (id : Int) (sm : String) :
    (storeLookup (thumbnailStage env s id sm).1 id).map ArticleRow.audioFilePath =
      (storeLookup s id).map ArticleRow.audioFilePath := by
  rcases thumbnailStage_store env s id sm with ht | ⟨url, ht⟩ <;> rw [ht]
  simp [storeLookup_storeUpdate]
  cases storeLookup s id <;> simp

theorem thumb_lookup_video (env : ProcEnv) (s : Store) (id : Int) (sm : String) :
    (storeLookup (thumbnailStage env s id sm).1 id).map ArticleRow.videoFilePath =
      (storeLookup s id).map ArticleRow.videoFilePath := by
  rcases thumbnailStage_store env s id sm with ht | ⟨url, ht⟩ <;> rw [ht]
  simp [storeLookup_storeUpdate]
  cases storeLookup s id <;> simp

theorem thumb_lookup_exA (env : ProcEnv) (s : Store) (id : Int) (sm : String)
    (v : Option String)
    (h : (storeLookup s id).map ArticleRow.audioFilePath = some v) :
    ∃ a, storeLookup (thumbnailStage env s id sm).1 id = some a ∧
      a.audioFilePath = v := by
  have h2 := thumb_lookup_audio env s id sm
  rw [h] at h2
  exact Option.map_eq_some'.mp h2

theorem thumb_lookup_exV (env : ProcEnv) (s : Store) (id : Int) (sm : String)
    (v : Option String)
    (h : (storeLookup s id).map ArticleRow.videoFilePath = some v) :
    ∃ a, storeLookup (thumbnailStage env s id sm).1 id = some a ∧
      a.videoFilePath = v := by
  have h2 := thumb_lookup_video env s id sm
  rw [h] at h2
  exact Option.map_eq_some'.mp h2

theorem any_synth_thumb (env : ProcEnv) (s : Store) (id : Int) (sm : String) :
    ((thumbnailStage env s id sm).2).any isSynthCall = false := by
  rw [List.any_eq_false]
  intro e he
  rcases thumbnailStage_mem env s id sm e he with h | ⟨k, h⟩ | h <;>
    subst h <;> simp [isSynthCall]

theorem any_synth_notifyFailed (env : ProcEnv) (m : String) :
    (notifyFailedEvs env m).any isSynthCall = false := by
  rw [List.any_eq_false]
  intro e he
  rw [notifyFailedEvs_mem env m e he]
  simp [isSynthCall]

theorem any_synth_notifyReady (env : ProcEnv) (t : String) :
    (notifyReadyEvs env t).any isSynthCall = false := by
  rw [List.any_eq_false]
  intro e he
  rw [notifyReadyEvs_mem env t e he]
  simp [isSynthCall]

theorem any_ready_thumb (env : ProcEnv) (s : Store) (id : Int) (sm : String) :
    ((thumbnailStage env s id sm).2).any isReadyStatus = false := by
  rw [List.any_eq_false]
  intro e he
  rcases thumbnailStage_mem env s id sm e he with h | ⟨k, h⟩ | h <;>
    subst h <;> simp [isReadyStatus]

theorem any_ready_notifyFailed (env : ProcEnv) (m : String) :
    (notifyFailedEvs env m).any isReadyStatus = false := by
  rw [List.any_eq_false]
  intro e he
  rw [notifyFailedEvs_mem env m e he]
  simp [isReadyStatus]

theorem any_ready_audio (env : ProcEnv) (s : Store) (id : Int) (row : ArticleRow) :
    ((audioStage env s id row).2.1).any isReadyStatus = false := by
  rw [List.any_eq_false]
  intro e he
  rcases audioStage_mem env s id row e he with ⟨l, st, h⟩ | h | ⟨m, h⟩ | ⟨t, b, h⟩ <;>
    subst h <;> simp [isReadyStatus]

theorem any_ready_video (env : ProcEnv) (f : FalEnv) (s : Store) (id : Int)
    (len sm : String) :
    ((videoStage env f s id len sm).2.1).any isReadyStatus = false := by
  rw [List.any_eq_false]
  intro e he
  rcases videoStage_mem env f s id len sm e he with
    ⟨a, b, h⟩ | ⟨a, h⟩ | ⟨a, h⟩ | ⟨a, h⟩ | ⟨a, h⟩ | ⟨a, h⟩ | ⟨a, b, h⟩ | ⟨a, h⟩ | h |
    ⟨a, h⟩ | ⟨a, b, h⟩ <;> subst h <;> simp [isReadyStatus]

theorem any_failNotify_thumb (env : ProcEnv) (s : Store) (id : Int) (sm : String) :
    ((thumbnailStage env s id sm).2).any isFailNotify = false := by
  rw [List.any_eq_false]
  intro e he
  rcases thumbnailStage_mem env s id sm e he with h | ⟨k, h⟩ | h <;>
    subst h <;> simp [isFailNotify]

theorem any_failNotify_gen (f : FalEnv) (p : String) (d : Int) :
    ((GenerateVideo f p d).1).any isFailNotify = false := by
  rw [List.any_eq_false]
  intro e he
  rcases GenerateVideo_mem f p d e he with ⟨a, b, h⟩ | ⟨a, h⟩ | ⟨a, h⟩ | ⟨a, h⟩ <;>
    subst h <;> simp [isFailNotify]

/-- C9: a text-format job never invokes any audio or video synthesis
capability, and both audio_file_path and video_file_path stay unset in
the final record. -/
theorem text_format_frame (env : ProcEnv) (id : Int) (s0 : Store) (row : ArticleRow)
    (hrow : storeLookup s0 id = some row) (hfmt : row.format = "text")
    (haud : row.audioFilePath = none) (hvid : row.videoFilePath = none) :
    ((processArticle env id s0).2.any isSynthCall = false) ∧
    (storeLookup (processArticle env id s0).1 id).map ArticleRow.audioFilePath = some none ∧
    (storeLookup (processArticle env id s0).1 id).map ArticleRow.videoFilePath = some none := by
  unfold processArticle
  cases hw : env.wProcessing with
  | error e =>
    simp [hw, hrow, haud, hvid, isSynthCall]
  | ok u =>
    simp only [hw]
    cases hsel : env.selectW with
    | error e =>
      simp [hsel, isSynthCall, List.any_append, failWrite_snd,
        failWrite_lookup_audio, failWrite_lookup_video,
        storeLookup_storeUpdate, hrow, haud, hvid]
    | ok u2 =>
      simp only [hsel, storeLookup_storeUpdate, hrow, Option.map_some']
      unfold processLoaded
      cases hsum : env.summarizeR with
      | error e =>
        simp [hsum, isSynthCall, List.any_append, failWrite_snd,
          any_synth_notifyFailed, failWrite_lookup_audio, failWrite_lookup_video,
          storeLookup_storeUpdate, hrow, haud, hvid]
      | ok pair =>
        simp only [hsum]
        cases hss : env.wSaveSummary with
        | error e =>
          simp [hss, isSynthCall, List.any_append, failWrite_snd,
            failWrite_lookup_audio, failWrite_lookup_video,
            storeLookup_storeUpdate, hrow, haud, hvid]
        | ok u3 =>
          simp only [hss]
          have hfa : ¬ ({ row with status := "processing", errorMessage := "" } :
              ArticleRow).format = "audio" := by simp [hfmt]
          have hfv : ¬ ({ row with status := "processing", errorMessage := "" } :
              ArticleRow).format = "video" := by simp [hfmt]
          simp only [hfa, if_false, hfv, ite_false]
          cases hr : env.wReady with
          | error e =>
            simp [hr, isSynthCall, List.any_append, any_synth_thumb,
              thumb_lookup_audio, thumb_lookup_video,
              storeLookup_storeUpdate, hrow, haud, hvid]
          | ok u4 =>
            simp only [hr]
            refine ⟨?_, ?_, ?_⟩
            · simp [isSynthCall, List.any_append, any_synth_thumb, any_synth_notifyReady]
            · obtain ⟨a, ha, hav⟩ := thumb_lookup_exA env
                (storeUpdate
                  (storeUpdate s0 id (fun r =>
                    { r with status := "processing", errorMessage := "" })) id
                  (fun r =>
                    { r with
                      originalContent := some pair.1
                      title := some (match env.genTitleR with
                        | Except.error _ => "Untitled Article"
                        | Except.ok t => t)
                      summary := some pair.2 }))
                id pair.2 none (by simp [storeLookup_storeUpdate, hrow, haud])
              simp [storeLookup_storeUpdate, ha, hav]
            · obtain ⟨a, ha, hav⟩ := thumb_lookup_exV env
                (storeUpdate
                  (storeUpdate s0 id (fun r =>
                    { r with status := "processing", errorMessage := "" })) id
                  (fun r =>
                    { r with
                      originalContent := some pair.1
                      title := some (match env.genTitleR with
                        | Except.error _ => "Untitled Article"
                        | Except.ok t => t)
                      summary := some pair.2 }))
                id pair.2 none (by simp [storeLookup_storeUpdate, hrow, hvid])
              simp [storeLookup_storeUpdate, ha, hav]

/-- Witness for C9 on a concrete text job. -/
theorem text_format_frame_witness :
    ((processArticle envAllOk 1 [(1, rowText)]).2.any isSynthCall = false) ∧
    (storeLookup (processArticle envAllOk 1 [(1, rowText)]).1 1).map
      ArticleRow.audioFilePath = some none ∧
    (storeLookup (processArticle envAllOk 1 [(1, rowText)]).1 1).map
      ArticleRow.videoFilePath = some none :=
  text_format_frame envAllOk 1 [(1, rowText)] rowText (by decide) (by decide)
    (by decide) (by decide)

theorem sublist_append_chunk {α : Type} (l m pre : List α) (h : List.Sublist l m) :
    List.Sublist l (pre ++ m) :=
  h.trans (List.sublist_append_right pre m)

/-- C4: in a video run whose synthesis stage succeeds (the sub-pipeline
returns a URL, the download succeeds, the upload succeeds), the video is
downloaded to the temporary local artifact named by the article id and
the clock, uploaded to durable storage, and the temporary artifact is
then deleted, in that order. -/
theorem video_temp_artifact_lifecycle (env : ProcEnv) (f : FalEnv) (id : Int)
    (s0 : Store) (row : ArticleRow) (c sm u durl : String)
    (hwp : env.wProcessing = .ok ()) (hsel : env.selectW = .ok ())
    (hrow : storeLookup s0 id = some row) (hfmt : row.format = "video")
    (hsum : env.summarizeR = .ok (c, sm)) (hss : env.wSaveSummary = .ok ())
    (hfal : env.fal = some f)
    (hgen : (GenerateVideo f sm (durationFor row.length)).2 = .ok u)
    (hdl : f.downloadR u = .ok ())
    (hup : env.storage.uploadVideoR = .ok durl) :
    List.Sublist
      [Ev.createFile ("uploads/videos/article_" ++ toString id ++ "_" ++
          toString f.nowUnix ++ ".mp4"),
       Ev.uploadVideo (GenerateVideoKey id) ("uploads/videos/article_" ++ toString id ++
          "_" ++ toString f.nowUnix ++ ".mp4"),
       Ev.deleteFile ("uploads/videos/article_" ++ toString id ++ "_" ++
          toString f.nowUnix ++ ".mp4")]
      (processArticle env id s0).2 := by
  unfold processArticle
  simp only [hwp, hsel, storeLookup_storeUpdate, hrow, Option.map_some']
  unfold processLoaded
  simp only [hsum, hss, hfmt, hfal]
  unfold videoStage
  simp only [hgen]
  unfold DownloadVideo
  simp only [hdl]
  unfold UploadVideoFile
  simp only [hup]
  cases hsv : env.wSaveVideo with
  | error e =>
    simp only [hsv]
    simp only [reduceIte, List.append_assoc, List.cons_append, List.nil_append]
    apply List.Sublist.cons
    apply List.Sublist.cons
    apply List.Sublist.cons
    apply List.Sublist.cons
    apply List.Sublist.cons
    repeat apply sublist_append_chunk
    apply List.Sublist.cons
    exact List.Sublist.cons₂ _ (List.Sublist.cons₂ _ (List.Sublist.cons₂ _
      (List.nil_sublist _)))
  | ok u2 =>
    simp only [hsv]
    cases hr : env.wReady with
    | error e =>
      simp only [hr]
      simp only [reduceIte, List.append_assoc, List.cons_append, List.nil_append]
      apply List.Sublist.cons
      apply List.Sublist.cons
      apply List.Sublist.cons
      apply List.Sublist.cons
      apply List.Sublist.cons
      repeat apply sublist_append_chunk
      apply List.Sublist.cons
      exact List.Sublist.cons₂ _ (List.Sublist.cons₂ _ (List.Sublist.cons₂ _
        (List.nil_sublist _)))
    | ok u3 =>
      simp only [hr]
      simp only [reduceIte, List.append_assoc, List.cons_append, List.nil_append]
      apply List.Sublist.cons
      apply List.Sublist.cons
      apply List.Sublist.cons
      apply List.Sublist.cons
      apply List.Sublist.cons
      repeat apply sublist_append_chunk
      apply List.Sublist.cons
      exact List.Sublist.cons₂ _ (List.Sublist.cons₂ _ (List.Sublist.cons₂ _
        (List.nil_sublist _)))

/-- Witness for C4 on the concrete successful video scenario. -/
theorem video_temp_artifact_lifecycle_witness :
    List.Sublist
      [Ev.createFile ("uploads/videos/article_" ++ toString (1 : Int) ++ "_" ++
          toString (111 : Int) ++ ".mp4"),
       Ev.uploadVideo (GenerateVideoKey 1) ("uploads/videos/article_" ++
          toString (1 : Int) ++ "_" ++ toString (111 : Int) ++ ".mp4"),
       Ev.deleteFile ("uploads/videos/article_" ++ toString (1 : Int) ++ "_" ++
          toString (111 : Int) ++ ".mp4")]
      (processArticle envScenario3 1 [(1, rowVideoL)]).2 :=
  video_temp_artifact_lifecycle envScenario3 falScenario 1 [(1, rowVideoL)] rowVideoL
    "content" "sum" "https://cdn/video.mp4" "https://s/videos/article_1.mp4"
    rfl rfl (by decide) rfl rfl rfl rfl rfl rfl rfl

theorem prefix_append_ne_empty (p e : String) (hp : p.length ≠ 0) : p ++ e ≠ "" := by
  intro h
  apply hp
  have h2 := congrArg String.length h
  rw [String.length_append] at h2
  have h0 : ("" : String).length = 0 := rfl
  rw [h0] at h2
  omega

theorem failWrite_lookup_ok (env : ProcEnv) (s : Store) (id : Int) (m : String)
    (r : ArticleRow) (hok : env.wFailed = .ok ()) (hl : storeLookup s id = some r) :
    storeLookup (failWrite env s id m).1 id =
      some { r with status := "failed", errorMessage := m } := by
  simp [failWrite, hok, storeLookup_storeUpdate, hl]

theorem thumb_lookup_ex (env : ProcEnv) (s : Store) (id : Int) (sm : String)
    (r : ArticleRow) (h : storeLookup s id = some r) :
    ∃ a, storeLookup (thumbnailStage env s id sm).1 id = some a := by
  rcases thumbnailStage_store env s id sm with ht | ⟨url, ht⟩ <;> rw [ht]
  · exact ⟨r, h⟩
  · rw [storeLookup_storeUpdate, h]
    exact ⟨_, rfl⟩

theorem fail_param_load (env : ProcEnv) (id : Int) (s0 : Store) (row : ArticleRow)
    (e : String)
    (hwp : env.wProcessing = .ok ()) (hf : env.wFailed = .ok ())
    (hrow : storeLookup s0 id = some row) (hsel : env.selectW = .error e) :
    (storeLookup (processArticle env id s0).1 id).map ArticleRow.status = some "failed" ∧
    (storeLookup (processArticle env id s0).1 id).map ArticleRow.errorMessage =
      some ("Failed to get article details: " ++ e) ∧
    ("Failed to get article details: " ++ e) ≠ "" ∧
    ((processArticle env id s0).2.any isFailNotify) = false := by
  unfold processArticle
  simp only [hwp, hsel]
  refine ⟨?_, ?_, prefix_append_ne_empty _ _ (by decide), ?_⟩
  · rw [failWrite_lookup_ok env _ id _ _ hf (by rw [storeLookup_storeUpdate, hrow]; rfl)]
    rfl
  · rw [failWrite_lookup_ok env _ id _ _ hf (by rw [storeLookup_storeUpdate, hrow]; rfl)]
    rfl
  · simp [failWrite_snd, List.any_append, isFailNotify]

theorem fail_summarize (env : ProcEnv) (id : Int) (s0 : Store) (row : ArticleRow)
    (e : String)
    (hwp : env.wProcessing = .ok ()) (hf : env.wFailed = .ok ())
    (hrow : storeLookup s0 id = some row) (hsel : env.selectW = .ok ())
    (hsum : env.summarizeR = .error e) :
    (storeLookup (processArticle env id s0).1 id).map ArticleRow.status = some "failed" ∧
    (storeLookup (processArticle env id s0).1 id).map ArticleRow.errorMessage =
      some ("Failed to summarize: " ++ e) ∧
    ("Failed to summarize: " ++ e) ≠ "" ∧
    (env.apnsPresent = true → ((processArticle env id s0).2.any isFailNotify) = true) := by
  unfold processArticle
  simp only [hwp, hsel, storeLookup_storeUpdate, hrow, Option.map_some']
  unfold processLoaded
  simp only [hsum]
  refine ⟨?_, ?_, prefix_append_ne_empty _ _ (by decide), ?_⟩
  · rw [failWrite_lookup_ok env _ id _ _ hf (by rw [storeLookup_storeUpdate, hrow]; rfl)]
    rfl
  · rw [failWrite_lookup_ok env _ id _ _ hf (by rw [storeLookup_storeUpdate, hrow]; rfl)]
    rfl
  · intro hap
    simp [failWrite_snd, List.any_append, isFailNotify, notifyFailedEvs, hap]

theorem fail_save_summary (env : ProcEnv) (id : Int) (s0 : Store) (row : ArticleRow)
    (e c sm : String)
    (hwp : env.wProcessing = .ok ()) (hf : env.wFailed = .ok ())
    (hrow : storeLookup s0 id = some row) (hsel : env.selectW = .ok ())
    (hsum : env.summarizeR = .ok (c, sm)) (hss : env.wSaveSummary = .error e) :
    (storeLookup (processArticle env id s0).1 id).map ArticleRow.status = some "failed" ∧
    (storeLookup (processArticle env id s0).1 id).map ArticleRow.errorMessage =
      some ("Failed to save summary: " ++ e) ∧
    ("Failed to save summary: " ++ e) ≠ "" ∧
    ((processArticle env id s0).2.any isFailNotify) = false := by
  unfold processArticle
  simp only [hwp, hsel, storeLookup_storeUpdate, hrow, Option.map_some']
  unfold processLoaded
  simp only [hsum, hss]
  refine ⟨?_, ?_, prefix_append_ne_empty _ _ (by decide), ?_⟩
  · rw [failWrite_lookup_ok env _ id _ _ hf (by rw [storeLookup_storeUpdate, hrow]; rfl)]
    rfl
  · rw [failWrite_lookup_ok env _ id _ _ hf (by rw [storeLookup_storeUpdate, hrow]; rfl)]
    rfl
  · simp [failWrite_snd, List.any_append, isFailNotify]

theorem update_isSome (s : Store) (id : Int) (f : ArticleRow → ArticleRow)
    (h : (storeLookup s id).isSome = true) :
    (storeLookup (storeUpdate s id f) id).isSome = true := by
  rw [storeLookup_storeUpdate]
  cases hx : storeLookup s id
  · rw [hx] at h
    simp at h
  · simp

theorem thumb_isSome (env : ProcEnv) (s : Store) (id : Int) (sm : String)
    (h : (storeLookup s id).isSome = true) :
    (storeLookup (thumbnailStage env s id sm).1 id).isSome = true := by
  rcases thumbnailStage_store env s id sm with ht | ⟨url, ht⟩ <;> rw [ht]
  · exact h
  · exact update_isSome _ _ _ h

theorem failWrite_map_status (env : ProcEnv) (s : Store) (id : Int) (m : String)
    (hok : env.wFailed = .ok ()) (hsome : (storeLookup s id).isSome = true) :
    (storeLookup (failWrite env s id m).1 id).map ArticleRow.status = some "failed" ∧
    (storeLookup (failWrite env s id m).1 id).map ArticleRow.errorMessage = some m := by
  obtain ⟨r, hr⟩ := Option.isSome_iff_exists.mp hsome
  rw [failWrite_lookup_ok env s id m r hok hr]
  exact ⟨rfl, rfl⟩

theorem fail_tts (env : ProcEnv) (id : Int) (s0 : Store) (row : ArticleRow)
    (e c sm : String)
    (hwp : env.wProcessing = .ok ()) (hf : env.wFailed = .ok ())
    (hrow : storeLookup s0 id = some row) (hsel : env.selectW = .ok ())
    (hsum : env.summarizeR = .ok (c, sm)) (hss : env.wSaveSummary = .ok ())
    (hfmt : row.format = "audio") (htts : env.ttsR = .error e) :
    (storeLookup (processArticle env id s0).1 id).map ArticleRow.status = some "failed" ∧
    (storeLookup (processArticle env id s0).1 id).map ArticleRow.errorMessage =
      some ("Failed to convert to speech: " ++ e) ∧
    ("Failed to convert to speech: " ++ e) ≠ "" ∧
    (env.apnsPresent = true → ((processArticle env id s0).2.any isFailNotify) = true) := by
  unfold processArticle
  simp only [hwp, hsel, storeLookup_storeUpdate, hrow, Option.map_some']
  unfold processLoaded
  simp only [hsum, hss, hfmt, reduceIte]
  unfold audioStage
  simp only [htts, reduceIte]
  refine ⟨?_, ?_, prefix_append_ne_empty _ _ (by decide), ?_⟩
  · exact (failWrite_map_status env _ id _ hf
      (thumb_isSome env _ id _ (update_isSome _ _ _ (update_isSome _ _ _
        (by rw [hrow]; rfl))))).1
  · exact (failWrite_map_status env _ id _ hf
      (thumb_isSome env _ id _ (update_isSome _ _ _ (update_isSome _ _ _
        (by rw [hrow]; rfl))))).2
  · intro hap
    simp [failWrite_snd, List.any_append, isFailNotify, notifyFailedEvs, hap]

theorem fail_save_audio (env : ProcEnv) (id : Int) (s0 : Store) (row : ArticleRow)
    (e c sm ap : String)
    (hwp : env.wProcessing = .ok ()) (hf : env.wFailed = .ok ())
    (hrow : storeLookup s0 id = some row) (hsel : env.selectW = .ok ())
    (hsum : env.summarizeR = .ok (c, sm)) (hss : env.wSaveSummary = .ok ())
    (hfmt : row.format = "audio") (htts : env.ttsR = .ok ap)
    (hsa : env.wSaveAudio = .error e) :
    (storeLookup (processArticle env id s0).1 id).map ArticleRow.status = some "failed" ∧
    (storeLookup (processArticle env id s0).1 id).map ArticleRow.errorMessage =
      some ("Failed to save audio path: " ++ e) ∧
    ("Failed to save audio path: " ++ e) ≠ "" ∧
    ((processArticle env id s0).2.any isFailNotify) = false := by
  unfold processArticle
  simp only [hwp, hsel, storeLookup_storeUpdate, hrow, Option.map_some']
  unfold processLoaded
  simp only [hsum, hss, hfmt, reduceIte]
  unfold audioStage
  simp only [htts, hsa, reduceIte]
  refine ⟨?_, ?_, prefix_append_ne_empty _ _ (by decide), ?_⟩
  · exact (failWrite_map_status env _ id _ hf
      (thumb_isSome env _ id _ (update_isSome _ _ _ (update_isSome _ _ _
        (by rw [hrow]; rfl))))).1
  · exact (failWrite_map_status env _ id _ hf
      (thumb_isSome env _ id _ (update_isSome _ _ _ (update_isSome _ _ _
        (by rw [hrow]; rfl))))).2
  · simp [failWrite_snd, List.any_append, isFailNotify, any_failNotify_thumb]

theorem fail_video_generate (env : ProcEnv) (f : FalEnv) (id : Int) (s0 : Store)
    (row : ArticleRow) (e c sm : String)
    (hwp : env.wProcessing = .ok ()) (hf : env.wFailed = .ok ())
    (hrow : storeLookup s0 id = some row) (hsel : env.selectW = .ok ())
    (hsum : env.summarizeR = .ok (c, sm)) (hss : env.wSaveSummary = .ok ())
    (hfmt : row.format = "video") (hfal : env.fal = some f)
    (hgen : (GenerateVideo f sm (durationFor row.length)).2 = .error e) :
    (storeLookup (processArticle env id s0).1 id).map ArticleRow.status = some "failed" ∧
    (storeLookup (processArticle env id s0).1 id).map ArticleRow.errorMessage =
      some ("Failed to generate video: " ++ e) ∧
    ("Failed to generate video: " ++ e) ≠ "" ∧
    (env.apnsPresent = true → ((processArticle env id s0).2.any isFailNotify) = true) := by
  unfold processArticle
  simp only [hwp, hsel, storeLookup_storeUpdate, hrow, Option.map_some']
  unfold processLoaded
  simp only [hsum, hss, hfmt, hfal, reduceIte]
  unfold videoStage
  simp only [hgen, reduceIte]
  refine ⟨?_, ?_, prefix_append_ne_empty _ _ (by decide), ?_⟩
  · exact (failWrite_map_status env _ id _ hf
      (thumb_isSome env _ id _ (update_isSome _ _ _ (update_isSome _ _ _
        (by rw [hrow]; rfl))))).1
  · exact (failWrite_map_status env _ id _ hf
      (thumb_isSome env _ id _ (update_isSome _ _ _ (update_isSome _ _ _
        (by rw [hrow]; rfl))))).2
  · intro hap
    simp [failWrite_snd, List.any_append, isFailNotify, notifyFailedEvs, hap]

theorem fail_video_download (env : ProcEnv) (f : FalEnv) (id : Int) (s0 : Store)
    (row : ArticleRow) (e c sm u : String)
    (hwp : env.wProcessing = .ok ()) (hf : env.wFailed = .ok ())
    (hrow : storeLookup s0 id = some row) (hsel : env.selectW = .ok ())
    (hsum : env.summarizeR = .ok (c, sm)) (hss : env.wSaveSummary = .ok ())
    (hfmt : row.format = "video") (hfal : env.fal = some f)
    (hgen : (GenerateVideo f sm (durationFor row.length)).2 = .ok u)
    (hdl : f.downloadR u = .error e) :
    (storeLookup (processArticle env id s0).1 id).map ArticleRow.status = some "failed" ∧
    (storeLookup (processArticle env id s0).1 id).map ArticleRow.errorMessage =
      some ("Failed to download video: " ++ e) ∧
    ("Failed to download video: " ++ e) ≠ "" ∧
    (env.apnsPresent = true → ((processArticle env id s0).2.any isFailNotify) = true) := by
  unfold processArticle
  simp only [hwp, hsel, storeLookup_storeUpdate, hrow, Option.map_some']
  unfold processLoaded
  simp only [hsum, hss, hfmt, hfal, reduceIte]
  unfold videoStage
  simp only [hgen]
  unfold DownloadVideo
  simp only [hdl, reduceIte]
  refine ⟨?_, ?_, prefix_append_ne_empty _ _ (by decide), ?_⟩
  · exact (failWrite_map_status env _ id _ hf
      (thumb_isSome env _ id _ (update_isSome _ _ _ (update_isSome _ _ _
        (by rw [hrow]; rfl))))).1
  · exact (failWrite_map_status env _ id _ hf
      (thumb_isSome env _ id _ (update_isSome _ _ _ (update_isSome _ _ _
        (by rw [hrow]; rfl))))).2
  · intro hap
    simp [failWrite_snd, List.any_append, isFailNotify, notifyFailedEvs, hap]

theorem fail_video_upload (env : ProcEnv) (f : FalEnv) (id : Int) (s0 : Store)
    (row : ArticleRow) (e c sm u : String)
    (hwp : env.wProcessing = .ok ()) (hf : env.wFailed = .ok ())
    (hrow : storeLookup s0 id = some row) (hsel : env.selectW = .ok ())
    (hsum : env.summarizeR = .ok (c, sm)) (hss : env.wSaveSummary = .ok ())
    (hfmt : row.format = "video") (hfal : env.fal = some f)
    (hgen : (GenerateVideo f sm (durationFor row.length)).2 = .ok u)
    (hdl : f.downloadR u = .ok ())
    (hup : env.storage.uploadVideoR = .error e) :
    (storeLookup (processArticle env id s0).1 id).map ArticleRow.status = some "failed" ∧
    (storeLookup (processArticle env id s0).1 id).map ArticleRow.errorMessage =
      some ("Failed to upload video: " ++ e) ∧
    ("Failed to upload video: " ++ e) ≠ "" ∧
    (env.apnsPresent = true → ((processArticle env id s0).2.any isFailNotify) = true) := by
  unfold processArticle
  simp only [hwp, hsel, storeLookup_storeUpdate, hrow, Option.map_some']
  unfold processLoaded
  simp only [hsum, hss, hfmt, hfal, reduceIte]
  unfold videoStage
  simp only [hgen]
  unfold DownloadVideo
  simp only [hdl]
  unfold UploadVideoFile
  simp only [hup, reduceIte]
  refine ⟨?_, ?_, prefix_append_ne_empty _ _ (by decide), ?_⟩
  · exact (failWrite_map_status env _ id _ hf
      (thumb_isSome env _ id _ (update_isSome _ _ _ (update_isSome _ _ _
        (by rw [hrow]; rfl))))).1
  · exact (failWrite_map_status env _ id _ hf
      (thumb_isSome env _ id _ (update_isSome _ _ _ (update_isSome _ _ _
        (by rw [hrow]; rfl))))).2
  · intro hap
    simp [failWrite_snd, List.any_append, isFailNotify, notifyFailedEvs, hap]

theorem fail_save_video (env : ProcEnv) (f : FalEnv) (id : Int) (s0 : Store)
    (row : ArticleRow) (e c sm u durl : String)
    (hwp : env.wProcessing = .ok ()) (hf : env.wFailed = .ok ())
    (hrow : storeLookup s0 id = some row) (hsel : env.selectW = .ok ())
    (hsum : env.summarizeR = .ok (c, sm)) (hss : env.wSaveSummary = .ok ())
    (hfmt : row.format = "video") (hfal : env.fal = some f)
    (hgen : (GenerateVideo f sm (durationFor row.length)).2 = .ok u)
    (hdl : f.downloadR u = .ok ())
    (hup : env.storage.uploadVideoR = .ok durl)
    (hsv : env.wSaveVideo = .error e) :
    (storeLookup (processArticle env id s0).1 id).map ArticleRow.status = some "failed" ∧
    (storeLookup (processArticle env id s0).1 id).map ArticleRow.errorMessage =
      some ("Failed to save video path: " ++ e) ∧
    ("Failed to save video path: " ++ e) ≠ "" ∧
    ((processArticle env id s0).2.any isFailNotify) = false := by
  unfold processArticle
  simp only [hwp, hsel, storeLookup_storeUpdate, hrow, Option.map_some']
  unfold processLoaded
  simp only [hsum, hss, hfmt, hfal, reduceIte]
  unfold videoStage
  simp only [hgen]
  unfold DownloadVideo
  simp only [hdl]
  unfold UploadVideoFile
  simp only [hup]
  simp only [hsv, reduceIte]
  refine ⟨?_, ?_, prefix_append_ne_empty _ _ (by decide), ?_⟩
  · exact (failWrite_map_status env _ id _ hf
      (thumb_isSome env _ id _ (update_isSome _ _ _ (update_isSome _ _ _
        (by rw [hrow]; rfl))))).1
  · exact (failWrite_map_status env _ id _ hf
      (thumb_isSome env _ id _ (update_isSome _ _ _ (update_isSome _ _ _
        (by rw [hrow]; rfl))))).2
  · simp [failWrite_snd, List.any_append, isFailNotify, any_failNotify_thumb,
      any_failNotify_gen]

/-- Run environment in which the summary-persistence write fails while
everything else succeeds and a notification target is configured. -/
def envSaveSummaryFail : ProcEnv := { envAllOk with wSaveSummary := .error "disk full" }

/-- C1 counterexample: a fatal persistence failure (the critical write of
the summary artifact fails) records the error and sets status=failed,
and a notification target is configured, yet no failure notification is
dispatched — contradicting the claim that every fatal stage failure
dispatches one. -/
theorem fatal_failure_notification_counterexample :
    (storeLookup (processArticle envSaveSummaryFail 1 [(1, rowText)]).1 1).map
      ArticleRow.status = some "failed" ∧
    envSaveSummaryFail.apnsPresent = true ∧
    ((processArticle envSaveSummaryFail 1 [(1, rowText)]).2.any isFailNotify) = false :=
  ⟨by decide, by decide, by decide⟩

/-- C1 (amended): every fatal stage failure records a nonempty
human-readable error_message and sets status=failed before the run
stops; a failure notification is dispatched (when a notification target
is configured) only on capability-stage failures — summarization, speech
synthesis, video generation, video download, video upload — while
parameter-load failures and persistence-write failures (summary, audio
path, video path) stop without dispatching any notification. -/
theorem fatal_failure_policy :
    (∀ (env : ProcEnv) (id : Int) (s0 : Store) (row : ArticleRow) (e : String),
      env.wProcessing = .ok () → env.wFailed = .ok () → storeLookup s0 id = some row →
      env.selectW = .error e →
      (storeLookup (processArticle env id s0).1 id).map ArticleRow.status = some "failed" ∧
      (storeLookup (processArticle env id s0).1 id).map ArticleRow.errorMessage =
        some ("Failed to get article details: " ++ e) ∧
      ("Failed to get article details: " ++ e) ≠ "" ∧
      ((processArticle env id s0).2.any isFailNotify) = false) ∧
    (∀ (env : ProcEnv) (id : Int) (s0 : Store) (row : ArticleRow) (e : String),
      env.wProcessing = .ok () → env.wFailed = .ok () → storeLookup s0 id = some row →
      env.selectW = .ok () → env.summarizeR = .error e →
      (storeLookup (processArticle env id s0).1 id).map ArticleRow.status = some "failed" ∧
      (storeLookup (processArticle env id s0).1 id).map ArticleRow.errorMessage =
        some ("Failed to summarize: " ++ e) ∧
      ("Failed to summarize: " ++ e) ≠ "" ∧
      (env.apnsPresent = true →
        ((processArticle env id s0).2.any isFailNotify) = true)) ∧
    (∀ (env : ProcEnv) (id : Int) (s0 : Store) (row : ArticleRow) (e c sm : String),
      env.wProcessing = .ok () → env.wFailed = .ok () → storeLookup s0 id = some row →
      env.selectW = .ok () → env.summarizeR = .ok (c, sm) →
      env.wSaveSummary = .error e →
      (storeLookup (processArticle env id s0).1 id).map ArticleRow.status = some "failed" ∧
      (storeLookup (processArticle env id s0).1 id).map ArticleRow.errorMessage =
        some ("Failed to save summary: " ++ e) ∧
      ("Failed to save summary: " ++ e) ≠ "" ∧
      ((processArticle env id s0).2.any isFailNotify) = false) ∧
    (∀ (env : ProcEnv) (id : Int) (s0 : Store) (row : ArticleRow) (e c sm : String),
      env.wProcessing = .ok () → env.wFailed = .ok () → storeLookup s0 id = some row →
      env.selectW = .ok () → env.summarizeR = .ok (c, sm) →
      env.wSaveSummary = .ok () → row.format = "audio" → env.ttsR = .error e →
      (storeLookup (processArticle env id s0).1 id).map ArticleRow.status = some "failed" ∧
      (storeLookup (processArticle env id s0).1 id).map ArticleRow.errorMessage =
        some ("Failed to convert to speech: " ++ e) ∧
      ("Failed to convert to speech: " ++ e) ≠ "" ∧
      (env.apnsPresent = true →
        ((processArticle env id s0).2.any isFailNotify) = true)) ∧
    (∀ (env : ProcEnv) (id : Int) (s0 : Store) (row : ArticleRow) (e c sm ap : String),
      env.wProcessing = .ok () → env.wFailed = .ok () → storeLookup s0 id = some row →
      env.selectW = .ok () → env.summarizeR = .ok (c, sm) →
      env.wSaveSummary = .ok () → row.format = "audio" → env.ttsR = .ok ap →
      env.wSaveAudio = .error e →
      (storeLookup (processArticle env id s0).1 id).map ArticleRow.status = some "failed" ∧
      (storeLookup (processArticle env id s0).1 id).map ArticleRow.errorMessage =
        some ("Failed to save audio path: " ++ e) ∧
      ("Failed to save audio path: " ++ e) ≠ "" ∧
      ((processArticle env id s0).2.any isFailNotify) = false) ∧
    (∀ (env : ProcEnv) (f : FalEnv) (id : Int) (s0 : Store) (row : ArticleRow)
        (e c sm : String),
      env.wProcessing = .ok () → env.wFailed = .ok () → storeLookup s0 id = some row →
      env.selectW = .ok () → env.summarizeR = .ok (c, sm) →
      env.wSaveSummary = .ok () → row.format = "video" → env.fal = some f →
      (GenerateVideo f sm (durationFor row.length)).2 = .error e →
      (storeLookup (processArticle env id s0).1 id).map ArticleRow.status = some "failed" ∧
      (storeLookup (processArticle env id s0).1 id).map ArticleRow.errorMessage =
        some ("Failed to generate video: " ++ e) ∧
      ("Failed to generate video: " ++ e) ≠ "" ∧
      (env.apnsPresent = true →
        ((processArticle env id s0).2.any isFailNotify) = true)) ∧
    (∀ (env : ProcEnv) (f : FalEnv) (id : Int) (s0 : Store) (row : ArticleRow)
        (e c sm u : String),
      env.wProcessing = .ok () → env.wFailed = .ok () → storeLookup s0 id = some row →
      env.selectW = .ok () → env.summarizeR = .ok (c, sm) →
      env.wSaveSummary = .ok () → row.format = "video" → env.fal = some f →
      (GenerateVideo f sm (durationFor row.length)).2 = .ok u →
      f.downloadR u = .error e →
      (storeLookup (processArticle env id s0).1 id).map ArticleRow.status = some "failed" ∧
      (storeLookup (processArticle env id s0).1 id).map ArticleRow.errorMessage =
        some ("Failed to download video: " ++ e) ∧
      ("Failed to download video: " ++ e) ≠ "" ∧
      (env.apnsPresent = true →
        ((processArticle env id s0).2.any isFailNotify) = true)) ∧
    (∀ (env : ProcEnv) (f : FalEnv) (id : Int) (s0 : Store) (row : ArticleRow)
        (e c sm u : String),
      env.wProcessing = .ok () → env.wFailed = .ok () → storeLookup s0 id = some row →
      env.selectW = .ok () → env.summarizeR = .ok (c, sm) →
      env.wSaveSummary = .ok () → row.format = "video" → env.fal = some f →
      (GenerateVideo f sm (durationFor row.length)).2 = .ok u →
      f.downloadR u = .ok () → env.storage.uploadVideoR = .error e →
      (storeLookup (processArticle env id s0).1 id).map ArticleRow.status = some "failed" ∧
      (storeLookup (processArticle env id s0).1 id).map ArticleRow.errorMessage =
        some ("Failed to upload video: " ++ e) ∧
      ("Failed to upload video: " ++ e) ≠ "" ∧
      (env.apnsPresent = true →
        ((processArticle env id s0).2.any isFailNotify) = true)) ∧
    (∀ (env : ProcEnv) (f : FalEnv) (id : Int) (s0 : Store) (row : ArticleRow)
        (e c sm u durl : String),
      env.wProcessing = .ok () → env.wFailed = .ok () → storeLookup s0 id = some row →
      env.selectW = .ok () → env.summarizeR = .ok (c, sm) →
      env.wSaveSummary = .ok () → row.format = "video" → env.fal = some f →
      (GenerateVideo f sm (durationFor row.length)).2 = .ok u →
      f.downloadR u = .ok () → env.storage.uploadVideoR = .ok durl →
      env.wSaveVideo = .error e →
      (storeLookup (processArticle env id s0).1 id).map ArticleRow.status = some "failed" ∧
      (storeLookup (processArticle env id s0).1 id).map ArticleRow.errorMessage =
        some ("Failed to save video path: " ++ e) ∧
      ("Failed to save video path: " ++ e) ≠ "" ∧
      ((processArticle env id s0).2.any isFailNotify) = false) :=
  ⟨fun env id s0 row e h1 h2 h3 h4 => fail_param_load env id s0 row e h1 h2 h3 h4,
   fun env id s0 row e h1 h2 h3 h4 h5 => fail_summarize env id s0 row e h1 h2 h3 h4 h5,
   fun env id s0 row e c sm h1 h2 h3 h4 h5 h6 =>
     fail_save_summary env id s0 row e c sm h1 h2 h3 h4 h5 h6,
   fun env id s0 row e c sm h1 h2 h3 h4 h5 h6 h7 h8 =>
     fail_tts env id s0 row e c sm h1 h2 h3 h4 h5 h6 h7 h8,
   fun env id s0 row e c sm ap h1 h2 h3 h4 h5 h6 h7 h8 h9 =>
     fail_save_audio env id s0 row e c sm ap h1 h2 h3 h4 h5 h6 h7 h8 h9,
   fun env f id s0 row e c sm h1 h2 h3 h4 h5 h6 h7 h8 h9 =>
     fail_video_generate env f id s0 row e c sm h1 h2 h3 h4 h5 h6 h7 h8 h9,
   fun env f id s0 row e c sm u h1 h2 h3 h4 h5 h6 h7 h8 h9 h10 =>
     fail_video_download env f id s0 row e c sm u h1 h2 h3 h4 h5 h6 h7 h8 h9 h10,
   fun env f id s0 row e c sm u h1 h2 h3 h4 h5 h6 h7 h8 h9 h10 h11 =>
     fail_video_upload env f id s0 row e c sm u h1 h2 h3 h4 h5 h6 h7 h8 h9 h10 h11,
   fun env f id s0 row e c sm u durl h1 h2 h3 h4 h5 h6 h7 h8 h9 h10 h11 h12 =>
     fail_save_video env f id s0 row e c sm u durl h1 h2 h3 h4 h5 h6 h7 h8 h9 h10 h11 h12⟩

/-- Witness for C1 at the concrete run whose summary-persistence write
fails: the record is failed with the recorded message and no failure
notification event appears in the trace. -/
theorem fatal_failure_policy_witness :
    (storeLookup (processArticle envSaveSummaryFail 1 [(1, rowText)]).1 1).map
      ArticleRow.status = some "failed" ∧
    (storeLookup (processArticle envSaveSummaryFail 1 [(1, rowText)]).1 1).map
      ArticleRow.errorMessage = some ("Failed to save summary: " ++ "disk full") ∧
    ("Failed to save summary: " ++ "disk full") ≠ "" ∧
    ((processArticle envSaveSummaryFail 1 [(1, rowText)]).2.any isFailNotify) = false :=
  fatal_failure_policy.2.2.1 envSaveSummaryFail 1 [(1, rowText)] rowText
    "disk full" "content" "sum" rfl rfl (by decide) rfl rfl rfl

theorem any_ready_dl (f : FalEnv) (u : String) (id : Int) :
    ((DownloadVideo f u id).1).any isReadyStatus = false := by
  rw [List.any_eq_false]
  intro e he
  rcases DownloadVideo_mem f u id e he with ⟨a, h⟩ | ⟨a, h⟩ <;>
    subst h <;> simp [isReadyStatus]

theorem any_ready_up (st : StorageEnv) (k p : String) :
    ((UploadVideoFile st k p).1).any isReadyStatus = false := by
  rw [List.any_eq_false]
  intro e he
  rcases UploadVideoFile_mem st k p e he with ⟨a, b, h⟩ | ⟨a, h⟩ <;>
    subst h <;> simp [isReadyStatus]

theorem any_ready_gen (f : FalEnv) (p : String) (d : Int) :
    ((GenerateVideo f p d).1).any isReadyStatus = false := by
  rw [List.any_eq_false]
  intro e he
  rcases GenerateVideo_mem f p d e he with ⟨a, b, h⟩ | ⟨a, h⟩ | ⟨a, h⟩ | ⟨a, h⟩ <;>
    subst h <;> simp [isReadyStatus]

/-- C2 counterexample: a job with format video processed while no video
service is wired reaches status ready with no synthesis event in its
trace and no video artifact — ready is reached without the video
synthesis stage having run. -/
theorem ready_without_video_counterexample :
    ((processArticle envAllOk 1 [(1, rowVideoL)]).2.any isReadyStatus) = true ∧
    ((processArticle envAllOk 1 [(1, rowVideoL)]).2.any isSynthCall) = false ∧
    (storeLookup (processArticle envAllOk 1 [(1, rowVideoL)]).1 1).map
      ArticleRow.status = some "ready" ∧
    (storeLookup (processArticle envAllOk 1 [(1, rowVideoL)]).1 1).map
      ArticleRow.videoFilePath = some none :=
  ⟨by decide, by decide, by decide, by decide⟩

/-- C2 (amended): whenever a run writes status ready, the summarization
stage succeeded, a format audio job had speech synthesis and its
persistence succeed, and a format video job whose video service is
configured had the whole video stage (generation, download, upload,
persistence) succeed; with no video service configured the video stage
is skipped entirely, so ready is reachable without it. -/
theorem ready_requires_critical_stages (env : ProcEnv) (id : Int) (s0 : Store)
    (row : ArticleRow)
    (hwp : env.wProcessing = .ok ()) (hsel : env.selectW = .ok ())
    (hrow : storeLookup s0 id = some row)
    (hready : ((processArticle env id s0).2.any isReadyStatus) = true) :
    ∃ c sm, env.summarizeR = .ok (c, sm) ∧
      (row.format = "audio" → (∃ p, env.ttsR = .ok p) ∧ env.wSaveAudio = .ok ()) ∧
      (row.format = "video" → ∀ f, env.fal = some f →
        ∃ u, (GenerateVideo f sm (durationFor row.length)).2 = .ok u ∧
          (∃ p, (DownloadVideo f u id).2 = .ok p) ∧
          (∃ durl, env.storage.uploadVideoR = .ok durl) ∧
          env.wSaveVideo = .ok ()) := by
  unfold processArticle at hready
  simp only [hwp, hsel, storeLookup_storeUpdate, hrow, Option.map_some'] at hready
  unfold processLoaded at hready
  cases hsum : env.summarizeR with
  | error e =>
    simp only [hsum] at hready
    simp [List.any_append, failWrite_snd, isReadyStatus, any_ready_notifyFailed]
      at hready
  | ok pair =>
    simp only [hsum] at hready
    cases hss : env.wSaveSummary with
    | error e =>
      simp only [hss] at hready
      simp [List.any_append, failWrite_snd, isReadyStatus] at hready
    | ok u2 =>
      simp only [hss] at hready
      refine ⟨pair.1, pair.2, rfl, ?_, ?_⟩
      · intro hfa
        cases ht : env.ttsR with
        | error e =>
          exfalso
          simp only [hfa, reduceIte] at hready
          unfold audioStage at hready
          simp only [ht, reduceIte] at hready
          simp [List.any_append, failWrite_snd, isReadyStatus,
            any_ready_notifyFailed, any_ready_thumb] at hready
        | ok p =>
          cases hw : env.wSaveAudio with
          | error e =>
            exfalso
            simp only [hfa, reduceIte] at hready
            unfold audioStage at hready
            simp only [ht, hw, reduceIte] at hready
            simp [List.any_append, failWrite_snd, isReadyStatus,
              any_ready_thumb] at hready
          | ok u3 =>
            cases u3
            exact ⟨⟨p, rfl⟩, rfl⟩
      · intro hfv f hfal
        simp only [hfv, hfal, reduceIte] at hready
        cases hg : (GenerateVideo f pair.2 (durationFor row.length)).2 with
        | error e =>
          exfalso
          unfold videoStage at hready
          simp only [hg, reduceIte] at hready
          simp [List.any_append, failWrite_snd, isReadyStatus,
            any_ready_notifyFailed, any_ready_thumb, any_ready_gen] at hready
        | ok u =>
          cases hd : (DownloadVideo f u id).2 with
          | error e =>
            exfalso
            unfold videoStage at hready
            simp only [hg, hd, reduceIte] at hready
            simp [List.any_append, failWrite_snd, isReadyStatus,
              any_ready_notifyFailed, any_ready_thumb, any_ready_gen,
              any_ready_dl] at hready
          | ok p =>
            cases hup : env.storage.uploadVideoR with
            | error e =>
              exfalso
              unfold videoStage at hready
              unfold UploadVideoFile at hready
              simp only [hg, hd, hup, reduceIte] at hready
              simp [List.any_append, failWrite_snd, isReadyStatus,
                any_ready_notifyFailed, any_ready_thumb, any_ready_gen,
                any_ready_dl, any_ready_up] at hready
            | ok durl =>
              cases hsv : env.wSaveVideo with
              | error e =>
                exfalso
                unfold videoStage at hready
                unfold UploadVideoFile at hready
                simp only [hg, hd, hup, hsv, reduceIte] at hready
                simp [List.any_append, failWrite_snd, isReadyStatus,
                  any_ready_thumb, any_ready_gen, any_ready_dl,
                  any_ready_up] at hready
              | ok u4 =>
                cases u4
                exact ⟨u, rfl, ⟨p, hd⟩, ⟨durl, rfl⟩, rfl⟩

/-- Witness for C2 on the concrete successful video scenario. -/
theorem ready_requires_critical_stages_witness :
    ∃ c sm, envScenario3.summarizeR = .ok (c, sm) ∧
      (rowVideoL.format = "audio" →
        (∃ p, envScenario3.ttsR = .ok p) ∧ envScenario3.wSaveAudio = .ok ()) ∧
      (rowVideoL.format = "video" → ∀ f, envScenario3.fal = some f →
        ∃ u, (GenerateVideo f sm (durationFor rowVideoL.length)).2 = .ok u ∧
          (∃ p, (DownloadVideo f u 1).2 = .ok p) ∧
          (∃ durl, envScenario3.storage.uploadVideoR = .ok durl) ∧
          envScenario3.wSaveVideo = .ok ()) :=
  ready_requires_critical_stages envScenario3 1 [(1, rowVideoL)] rowVideoL
    rfl rfl (by decide) (by decide)

end PocketScribe
